import Mathlib

/-!
Verification development for the `relm-gen-widget` code generator
(`src/relm-gen-widget/src/gen.rs`).  The generator lowers a parsed widget
tree into a linear list of statements constructing and wiring a widget
graph, together with a component-type mapping and an optional container
trait implementation.

The embedding below models the walker (`Generator::widget`,
`Generator::gtk_widget`, `Generator::relm_widget`), the helper functions
(`gen_construct_widget`, `gen_set_child_prop_calls`, `collect_event`,
`collect_events`, `collect_relm_events`, `set_container!`,
`gen_set_prop_calls!`, `add_child_or_show_all`, `add_or_create_widget`,
`gen_container_impl`, `gen_add_widget_method`, `gen_widget_type`) and the
top level `gen`.  Rust panics (`panic!`, `unreachable!`, `.expect`) are
modelled as `Except.error` values of an explicit error type; emitted
`quote!` fragments are modelled as a statement AST that records exactly the
information the token stream carries.
-/

/-- Expressions (`syn::Expr` values spliced into the generated code) are
kept opaque; only their identity matters for the emitted token stream. -/
abbrev GenExpr := String

/-- Modelled from the spec: the Expression Rewriter (`Remover::fold_expr`
in `remover.rs`, which is not under `src/`) is a pure black-box function
that strips internal marker syntax from an expression before it is spliced.
No claim depends on its output, so it is modelled as the identity. -/
def remover_fold_expr (e : GenExpr) : GenExpr := e

/-- A `syn::Path`.  Only the first segment is ever inspected by the
generator (`gen_add_widget_method` compares it against `"gtk"`); the
remaining segments are carried opaquely.  `relmComponent p` models the path
`::relm::Component<p>` built by `gen_relm_component_type`, whose first
segment is `relm`. -/
inductive GenPath where
  | raw (first : String) (rest : List String)
  | relmComponent (inner : GenPath)
deriving DecidableEq, Repr

/-- First segment of a path (`typ.segments.first().expect(..).ident`). -/
def GenPath.firstSegment : GenPath → String
  | .raw f _ => f
  | .relmComponent _ => "relm"

/-- The `::relm::Component<#name>` path built by `gen_relm_component_type`. -/
def gen_relm_component_type (name : GenPath) : GenPath := .relmComponent name

/-- The `WidgetType` enum of `gen.rs` (`IsGtk` / `IsRelm`). -/
inductive WidgetKind where
  | isGtk
  | isRelm
deriving DecidableEq, Repr

/-- Modelled from the spec and the uses in `gen.rs`: the
`parser::EventValueReturn` enum (`WithoutReturn`, `Return`, `CallReturn`);
`parser.rs` is not under `src/`. -/
inductive EventValueReturn where
  | withoutReturn (value : GenExpr)
  | ret (value : GenExpr) (returnValue : GenExpr)
  | callReturn (func : GenExpr)
deriving DecidableEq, Repr

/-- Modelled from the spec and the uses in `gen.rs`: the
`parser::EventValue` enum (`CurrentWidget`, `ForeignWidget`). -/
inductive EventValue where
  | currentWidget (v : EventValueReturn)
  | foreignWidget (name : String) (v : EventValueReturn)
deriving DecidableEq, Repr

/-- Modelled from the spec and the uses in `gen.rs`: a `parser::Event`
(trigger parameters, value, `use_self`). -/
structure Event where
  params : List String
  value : EventValue
  useSelf : Bool
deriving DecidableEq, Repr

/-- Modelled from the spec and the uses in `gen.rs`: the Gtk-specific data
of a widget node (`parser::GtkWidget`): events, child events keyed by
(child accessor, event name), the `save` flag, and the `relm_name`
assigned by the driver.  Mappings are modelled as association lists in
iteration order (the spec declares the node mappings ordered). -/
structure GtkWidgetData where
  events : List (String × Event)
  childEvents : List ((String × String) × Event)
  save : Bool
  relmName : Option String
deriving DecidableEq, Repr

/-- Modelled from the spec and the uses in `gen.rs`: the Relm-specific
data of a widget node (`parser::RelmWidget`): event name mapped to the
ordered bindings declared for it. -/
structure RelmWidgetData where
  events : List (String × List Event)
deriving DecidableEq, Repr

/-- Modelled from the spec and the uses in `gen.rs`: the
`parser::EitherWidget` enum (`Gtk` / `Relm`). -/
inductive EitherWidget where
  | gtk (g : GtkWidgetData)
  | relm (r : RelmWidgetData)
deriving DecidableEq, Repr

/-- Modelled from the spec (§3) and the uses in `gen.rs`: a widget tree
node (`parser::Widget`): name, type path, properties, child properties,
constructor parameters, optional container discriminant
(`container_type`: outer `some` = the node declares an attachment point;
inner `some s` = named `#[container="s"]`, inner `none` = the default
`#[container]`), children and the kind-specific data. -/
inductive Widget where
  | mk (name : String) (typ : GenPath)
       (properties : List (String × GenExpr))
       (childProperties : List (String × GenExpr))
       (initParameters : List GenExpr)
       (containerType : Option (Option String))
       (children : List Widget)
       (widget : EitherWidget)

/-- Name of a widget node. -/
def Widget.name : Widget → String
  | .mk n _ _ _ _ _ _ _ => n

/-- Type path of a widget node. -/
def Widget.typ : Widget → GenPath
  | .mk _ t _ _ _ _ _ _ => t

/-- Children of a widget node. -/
def Widget.children : Widget → List Widget
  | .mk _ _ _ _ _ _ c _ => c

/-- Container discriminant of a widget node. -/
def Widget.containerType : Widget → Option (Option String)
  | .mk _ _ _ _ _ ct _ _ => ct

/-- Kind-specific data of a widget node. -/
def Widget.widget : Widget → EitherWidget
  | .mk _ _ _ _ _ _ _ w => w

/-- Target expression a property setter is invoked on: `#widget_name` for
Gtk nodes, `#widget_name.widget_mut()` for Relm nodes. -/
inductive TargetRef where
  | direct (name : String)
  | widgetMut (name : String)
deriving DecidableEq, Repr

/-- The two construction expressions `gen_construct_widget` can emit: the
generic `g_object_new` + `downcast_unchecked` path or the direct
`#struct_name::new(#(#params),*)` call. -/
inductive ConstructExpr where
  | genericDowncast (typ : GenPath) (params : List GenExpr)
  | typedNew (typ : GenPath) (params : List GenExpr)
deriving DecidableEq, Repr

/-- Parent accessor used by `gen_set_child_prop_calls`: the parent name
itself for a Gtk parent, or `::relm::Container::container(&*#parent.widget())`
for a Relm parent. -/
inductive ParentAccess where
  | direct (parent : String)
  | containerOf (parent : String)
deriving DecidableEq, Repr

/-- Child reference used by `gen_set_child_prop_calls`: `&#widget_name`
for a Gtk child, `&#widget_name.widget().root()` for a Relm child. -/
inductive ChildRef where
  | direct (name : String)
  | widgetRoot (name : String)
deriving DecidableEq, Repr

/-- Statements of the emitted token stream (the `quote!` fragments
concatenated by the walker). -/
inductive Stmt where
  /-- `let #widget_name: #struct_name = #construct_widget;` -/
  | letConstruct (name : String) (typ : GenPath) (c : ConstructExpr)
  /-- `#ident.#property_func(#new_value);` from `gen_set_prop_calls!`. -/
  | setProp (target : TargetRef) (func : String) (value : GenExpr)
  /-- `::gtk::ContainerExt::add(&#parent, &#widget_name);` -/
  | gtkContainerAdd (parent : String) (name : String)
  /-- `::relm::RelmContainer::add(&#parent, &#widget_name);` -/
  | relmContainerAdd (parent : String) (name : String)
  /-- `let #name = { ::relm::ContainerWidget::add_widget::<#typ, _>(&#parent, &relm, #params) };` -/
  | containerAddWidget (name : String) (typ : GenPath) (parent : String) (params : List GenExpr)
  /-- `let #name = { ::relm::RelmContainer::add_widget::<#typ, _>(&#parent, &relm, #params) };` -/
  | relmAddWidget (name : String) (typ : GenPath) (parent : String) (params : List GenExpr)
  /-- `let #name = { ::relm::create_component::<#typ, _>(&relm, #params) };` -/
  | createComponent (name : String) (typ : GenPath) (params : List GenExpr)
  /-- `#widget_name.show();` -/
  | showWidget (name : String)
  /-- `#parent_access.#property_func(#child_ref, #value);` from `gen_set_child_prop_calls`. -/
  | setChildProp (parent : ParentAccess) (func : String) (child : ChildRef) (value : GenExpr)
deriving DecidableEq, Repr

/-- The `connect!` invocation inside an event-wiring block, one
constructor per `quote!` arm of `collect_event` / `collect_relm_events`.
`useSelf` records whether the `with #clone_ident` model fragment
(`gen_model_ident`) is spliced. -/
inductive ConnectStmt where
  | gtkCurrentWithoutReturn (widget : String) (eventIdent : String)
      (params : List String) (value : GenExpr)
  | gtkForeignWithoutReturn (widget : String) (eventIdent : String)
      (params : List String) (foreign : String) (value : GenExpr)
  | gtkCurrentReturn (widget : String) (eventIdent : String)
      (params : List String) (value : GenExpr) (returnValue : GenExpr)
  | gtkCurrentCallReturn (widget : String) (eventIdent : String)
      (params : List String) (useSelf : Bool) (func : GenExpr)
  | relmCurrentWithoutReturn (widget : String) (eventIdent : String)
      (params : List String) (useSelf : Bool) (value : GenExpr)
  | relmForeignWithoutReturn (widget : String) (eventIdent : String)
      (params : List String) (foreign : String) (useSelf : Bool) (value : GenExpr)
deriving DecidableEq, Repr

/-- One event-wiring block `{ #clone connect!(..); }` pushed onto
`generator.events`.  `clone = true` means the block begins with the
`let #clone_ident = #clone_ident.clone();` statement emitted by
`gen_clone` (i.e. `gen_clone` was called with `save = true`). -/
structure EventStmt where
  clone : Bool
  connect : ConnectStmt
deriving DecidableEq, Repr

/-- Errors of the generator.  Every Rust `panic!` / `unreachable!` /
`.expect` reachable from `gen` is mapped to one constructor:
`duplicateContainerAttribute` is the `set_container!` panic (the spec's
`DuplicateContainerDiscriminant`), `missingDefaultContainer` the
`gen_container_impl` panic, `unsupportedEventShape` the `unreachable!` in
`collect_relm_events`, `unsupportedGtkForeignReturn` the `unreachable!` in
`collect_event`, `missingRoot` the `root_widget is None` expect in `gen`,
and `internalExpect` the remaining `.expect` calls. -/
inductive GenError where
  | duplicateContainerAttribute (d : Option String)
  | missingDefaultContainer
  | unsupportedEventShape
  | unsupportedGtkForeignReturn
  | missingRoot
  | internalExpect (what : String)
deriving DecidableEq, Repr

/-- The root-widget type recorded in the driver: the plain struct path for
a Gtk root, or `<#typ as ::relm::Widget>::Root` for a Relm root. -/
inductive RootType where
  | gtkType (typ : GenPath)
  | relmRoot (typ : GenPath)
deriving DecidableEq, Repr

/-- The root-widget accessor expression recorded in the driver:
`#widget_name` for a Gtk root, `#widget_name.widget().root()` for a Relm
root. -/
inductive RootExpr where
  | plain (name : String)
  | widgetRoot (name : String)
deriving DecidableEq, Repr

/-- The driver fields written by the walker (`Driver` lives outside
`gen.rs`; only the fields `gen.rs` writes are modelled).  `rootLog` is
ghost instrumentation: it records, in order, every widget name written to
`root_widget`, so that "the root is recorded exactly once" is statable. -/
structure DriverState where
  rootWidgetType : Option RootType
  rootWidget : Option String
  rootWidgetExpr : Option RootExpr
  rootLog : List String
deriving DecidableEq, Repr

/-- The mutable state of `Generator` (plus the driver): the container
registry `container_names`, the accumulated event-wiring blocks, the
`relm_widgets` component-type mapping and the visited `widget_names`.
The two Rust `HashMap`s are modelled as association lists; for
`container_names` the list order stands for the map's (unspecified)
iteration order, with insertion order as the representative. -/
structure GenState where
  containerNames : List (Option String × (String × GenPath))
  events : List EventStmt
  relmWidgets : List (String × GenPath)
  widgetNames : List String
  driver : DriverState
deriving DecidableEq, Repr

/-- The initial state of `Generator::new` with an unwritten driver. -/
def initGenState : GenState :=
  { containerNames := []
    events := []
    relmWidgets := []
    widgetNames := []
    driver := { rootWidgetType := none, rootWidget := none,
                rootWidgetExpr := none, rootLog := [] } }

/-- Lookup in an association list keyed by container discriminant
(models `HashMap::contains_key` / `get`). -/
def lookupContainer : List (Option String × (String × GenPath)) → Option String →
    Option (String × GenPath)
  | [], _ => none
  | kv :: rest, k => if kv.1 = k then some kv.2 else lookupContainer rest k

/-- `HashMap::insert` on the `relm_widgets` mapping: replace the binding
if the key is present, otherwise append it. -/
def insertRelmWidget (l : List (String × GenPath)) (k : String) (v : GenPath) :
    List (String × GenPath) :=
  if l.any (fun kv => kv.1 = k) then
    l.map (fun kv => if kv.1 = k then (k, v) else kv)
  else
    l ++ [(k, v)]

/-- The `set_container!` macro: if the node declares a container
discriminant, fail when it is already registered, otherwise record the
widget in `relm_widgets` and register the discriminant in
`container_names`. -/
def set_container (s : GenState) (containerType : Option (Option String))
    (widgetName : String) (widgetType : GenPath) : Except GenError GenState :=
  match containerType with
  | none => .ok s
  | some d =>
    if (lookupContainer s.containerNames d).isSome then
      .error (.duplicateContainerAttribute d)
    else
      .ok { s with
        relmWidgets := insertRelmWidget s.relmWidgets widgetName widgetType
        containerNames := s.containerNames ++ [(d, (widgetName, widgetType))] }

/-- The `gen_set_prop_calls!` macro: build the non-`visible` setter
statements and the `visible` setter statements, in property order, each
setter being `#ident.set_<key>(#rewritten_value);`. -/
def gen_set_prop_calls : List (String × GenExpr) → TargetRef → List Stmt × List Stmt
  | [], _ => ([], [])
  | (key, value) :: rest, ident =>
    let (props, visibles) := gen_set_prop_calls rest ident
    let property := Stmt.setProp ident ("set_" ++ key) (remover_fold_expr value)
    if key = "visible" then (props, property :: visibles)
    else (property :: props, visibles)

/-- `gen_construct_widget`: generic `g_object_new` + downcast when the
constructor parameters are empty, direct `#typ::new(..)` otherwise. -/
def gen_construct_widget (typ : GenPath) (initParameters : List GenExpr) : ConstructExpr :=
  if initParameters.isEmpty then .genericDowncast typ initParameters
  else .typedNew typ initParameters

/-- `gen_set_child_prop_calls`: nothing without a parent; otherwise one
`set_child_<key>` call per child property, invoked on the parent accessor
with a reference to this child's root. -/
def gen_set_child_prop_calls (widgetName : String)
    (childProperties : List (String × GenExpr)) (parent : Option String)
    (parentKind : WidgetKind) (widgetKind : WidgetKind) : List Stmt :=
  match parent with
  | none => []
  | some p =>
    childProperties.map fun kv =>
      Stmt.setChildProp
        (if parentKind = .isGtk then .direct p else .containerOf p)
        ("set_child_" ++ kv.1)
        (if widgetKind = .isGtk then .direct widgetName else .widgetRoot widgetName)
        kv.2

/-- `Generator::collect_event` for one Gtk event: one block per binding,
beginning with a clone exactly when `save` holds (`gen_clone(save)`), and
failing on a foreign-widget binding with a return shape
(the `unreachable!` arm). -/
def collect_event (widgetName : String) (save : Bool) (name : String)
    (event : Event) : Except GenError EventStmt :=
  let eventIdent := "connect_" ++ name
  match event.value with
  | .currentWidget (.withoutReturn v) =>
    .ok ⟨save, .gtkCurrentWithoutReturn widgetName eventIdent event.params v⟩
  | .foreignWidget f (.withoutReturn v) =>
    .ok ⟨save, .gtkForeignWithoutReturn widgetName eventIdent event.params f v⟩
  | .currentWidget (.ret v rv) =>
    .ok ⟨save, .gtkCurrentReturn widgetName eventIdent event.params v rv⟩
  | .foreignWidget _ (.ret _ _) => .error .unsupportedGtkForeignReturn
  | .foreignWidget _ (.callReturn _) => .error .unsupportedGtkForeignReturn
  | .currentWidget (.callReturn func) =>
    .ok ⟨save, .gtkCurrentCallReturn widgetName eventIdent event.params event.useSelf func⟩

/-- The loop over `gtk_widget.events` in `Generator::collect_events`. -/
def collect_gtk_events (widgetName : String) (save : Bool) :
    List (String × Event) → Except GenError (List EventStmt)
  | [] => .ok []
  | (name, event) :: rest =>
    match collect_event widgetName save name event with
    | .error e => .error e
    | .ok st =>
      match collect_gtk_events widgetName save rest with
      | .error e => .error e
      | .ok sts => .ok (st :: sts)

/-- The loop over `gtk_widget.child_events` in `Generator::collect_events`:
the target is the formatted accessor `{widget}.get_{child}()` and the
clone flag is forced to `false`. -/
def collect_gtk_child_events (widgetName : String) :
    List ((String × String) × Event) → Except GenError (List EventStmt)
  | [] => .ok []
  | ((childName, name), event) :: rest =>
    match collect_event (widgetName ++ ".get_" ++ childName ++ "()") false name event with
    | .error e => .error e
    | .ok st =>
      match collect_gtk_child_events widgetName rest with
      | .error e => .error e
      | .ok sts => .ok (st :: sts)

/-- `Generator::collect_events`: the widget's own events followed by its
child events. -/
def collect_events (widgetName : String) (g : GtkWidgetData) :
    Except GenError (List EventStmt) :=
  match collect_gtk_events widgetName g.save g.events with
  | .error e => .error e
  | .ok evs1 =>
    match collect_gtk_child_events widgetName g.childEvents with
    | .error e => .error e
    | .ok evs2 => .ok (evs1 ++ evs2)

/-- One binding in `Generator::collect_relm_events`: `gen_clone(true)` is
always emitted, and any shape other than `WithoutReturn` hits the
`unreachable!` arm (modelled as `unsupportedEventShape`). -/
def collect_relm_event (widgetName : String) (name : String) (event : Event) :
    Except GenError EventStmt :=
  match event.value with
  | .currentWidget (.withoutReturn v) =>
    .ok ⟨true, .relmCurrentWithoutReturn widgetName name event.params event.useSelf v⟩
  | .foreignWidget f (.withoutReturn v) =>
    .ok ⟨true, .relmForeignWithoutReturn widgetName name event.params f event.useSelf v⟩
  | .currentWidget (.ret _ _) => .error .unsupportedEventShape
  | .currentWidget (.callReturn _) => .error .unsupportedEventShape
  | .foreignWidget _ (.ret _ _) => .error .unsupportedEventShape
  | .foreignWidget _ (.callReturn _) => .error .unsupportedEventShape

/-- The inner loop of `Generator::collect_relm_events` over the bindings
declared for one event name. -/
def collect_relm_event_list (widgetName : String) (name : String) :
    List Event → Except GenError (List EventStmt)
  | [] => .ok []
  | event :: rest =>
    match collect_relm_event widgetName name event with
    | .error e => .error e
    | .ok st =>
      match collect_relm_event_list widgetName name rest with
      | .error e => .error e
      | .ok sts => .ok (st :: sts)

/-- The outer loop of `Generator::collect_relm_events`. -/
def collect_relm_events (widgetName : String) :
    List (String × List Event) → Except GenError (List EventStmt)
  | [] => .ok []
  | (name, events) :: rest =>
    match collect_relm_event_list widgetName name events with
    | .error e => .error e
    | .ok sts1 =>
      match collect_relm_events widgetName rest with
      | .error e => .error e
      | .ok sts2 => .ok (sts1 ++ sts2)

/-- `Generator::add_child_or_show_all`: with a parent, an add statement
chosen by the parent's kind; without a parent, no statement, and the
driver's root fields are written (the `rootLog` ghost records the
write). -/
def add_child_or_show_all (s : GenState) (widgetName : String) (typ : GenPath)
    (parent : Option String) (parentKind : WidgetKind) : GenState × List Stmt :=
  match parent with
  | some p =>
    (s, [if parentKind = .isGtk then Stmt.gtkContainerAdd p widgetName
         else Stmt.relmContainerAdd p widgetName])
  | none =>
    ({ s with driver := { s.driver with
        rootWidgetType := some (.gtkType typ)
        rootWidget := some widgetName
        rootWidgetExpr := some (.plain widgetName)
        rootLog := s.driver.rootLog ++ [widgetName] } }, [])

/-- `Generator::add_or_create_widget`: with a parent, an `add_widget`
statement chosen by the parent's kind; without a parent, a
`create_component` statement, and the driver's root fields are written
(with the `<#typ as Widget>::Root` type and the `.widget().root()`
accessor). -/
def add_or_create_widget (s : GenState) (parent : Option String)
    (parentKind : WidgetKind) (widgetName : String) (typ : GenPath)
    (initParameters : List GenExpr) : GenState × List Stmt :=
  match parent with
  | some p =>
    (s, [if parentKind = .isGtk then Stmt.containerAddWidget widgetName typ p initParameters
         else Stmt.relmAddWidget widgetName typ p initParameters])
  | none =>
    ({ s with driver := { s.driver with
        rootWidgetType := some (.relmRoot typ)
        rootWidget := some widgetName
        rootWidgetExpr := some (.widgetRoot widgetName)
        rootLog := s.driver.rootLog ++ [widgetName] } },
     [Stmt.createComponent widgetName typ initParameters])

/-- The state updates `Generator::gtk_widget` performs between
`set_container!` and the recursion into the children: push the widget
name, record the widget in `relm_widgets` when `save` is set, and append
the collected event-wiring blocks. -/
def gtkMidState (s1 : GenState) (name : String) (typ : GenPath) (g : GtkWidgetData)
    (evs : List EventStmt) : GenState :=
  let s2 := { s1 with widgetNames := s1.widgetNames ++ [name] }
  let s3 := if g.save
    then { s2 with relmWidgets := insertRelmWidget s2.relmWidgets name typ }
    else s2
  { s3 with events := s3.events ++ evs }

/-- The state updates `Generator::relm_widget` performs between
`set_container!` and the recursion into the children: record the
`::relm::Component<typ>` mapping and append the collected event-wiring
blocks (the widget name is pushed before `set_container!` in this
branch). -/
def relmMidState (s2 : GenState) (name : String) (typ : GenPath)
    (evs : List EventStmt) : GenState :=
  { s2 with
    relmWidgets := insertRelmWidget s2.relmWidgets name (gen_relm_component_type typ)
    events := s2.events ++ evs }

mutual

/-- The recursive walker `Generator::widget` dispatching on the widget
kind (`Generator::gtk_widget` / `Generator::relm_widget`), threading the
generator state and returning the emitted statement list of the node. -/
def walkWidget : Widget → Option String → WidgetKind → GenState →
    Except GenError (GenState × List Stmt)
  | .mk name typ props cprops initp ct children ew, parent, parentKind, s =>
    match ew with
    | .gtk g =>
      -- Generator::gtk_widget
      match set_container s ct name typ with
      | .error e => .error e
      | .ok s1 =>
        match collect_events name g with
        | .error e => .error e
        | .ok evs =>
          match walkChildren children name .isGtk (gtkMidState s1 name typ g evs) with
          | .error e => .error e
          | .ok (s5, childStmts) =>
            .ok ((add_child_or_show_all s5 name typ parent parentKind).1,
              Stmt.letConstruct name typ (gen_construct_widget typ initp) ::
                (gen_set_prop_calls props (.direct name)).1 ++ childStmts ++
                (add_child_or_show_all s5 name typ parent parentKind).2 ++
                Stmt.showWidget name ::
                  ((gen_set_prop_calls props (.direct name)).2 ++
                    gen_set_child_prop_calls name cprops parent parentKind .isGtk))
    | .relm r =>
      -- Generator::relm_widget
      match set_container { s with widgetNames := s.widgetNames ++ [name] } ct name typ with
      | .error e => .error e
      | .ok s2 =>
        match collect_relm_events name r.events with
        | .error e => .error e
        | .ok evs =>
          match walkChildren children name .isRelm (relmMidState s2 name typ evs) with
          | .error e => .error e
          | .ok (s5, childStmts) =>
            .ok ((add_or_create_widget s5 parent parentKind name typ initp).1,
              (add_or_create_widget s5 parent parentKind name typ initp).2 ++
                (gen_set_prop_calls props (.widgetMut name)).1 ++
                (gen_set_prop_calls props (.widgetMut name)).2 ++
                childStmts ++
                gen_set_child_prop_calls name cprops parent parentKind .isRelm)

/-- The children loop of the walker (`widget.children.iter().map(..)`),
concatenating each child's emitted statements in declaration order. -/
def walkChildren : List Widget → String → WidgetKind → GenState →
    Except GenError (GenState × List Stmt)
  | [], _, _, s => .ok (s, [])
  | c :: cs, parentName, parentKind, s =>
    match walkWidget c (some parentName) parentKind s with
    | .error e => .error e
    | .ok (s1, ts1) =>
      match walkChildren cs parentName parentKind s1 with
      | .error e => .error e
      | .ok (s2, ts2) => .ok (s2, ts1 ++ ts2)

end

/-- `gen_widget_type`: the type the container impl is written for — the
driver-assigned `relm_name` for a Gtk root (whose absence is the
`.unwrap()` panic), or the node's own type path for a Relm root. -/
inductive WidgetTypeRef where
  | ident (s : String)
  | path (p : GenPath)
deriving DecidableEq, Repr

/-- The `gen_widget_type` function of `gen.rs`. -/
def gen_widget_type (w : Widget) : Except GenError WidgetTypeRef :=
  match w.widget with
  | .gtk g =>
    match g.relmName with
    | some n => .ok (.ident n)
    | none => .error (.internalExpect "relm_name")
  | .relm _ => .ok (.path w.typ)

/-- Whether an entry of the container registry uses the Gtk container
trait (`::gtk::ContainerExt` with `self.#name.clone()` upcast) or the Relm
container trait (`::relm::RelmContainer` with `self.#name.widget().root()`
upcast), decided by comparing the first path segment with `"gtk"`. -/
inductive ContainerTrait where
  | gtkContainerExt
  | relmContainer
deriving DecidableEq, Repr

/-- The trait/upcast selection of `gen_add_widget_method`. -/
def container_trait_for (typ : GenPath) : ContainerTrait :=
  if typ.firstSegment = "gtk" then .gtkContainerExt else .relmContainer

/-- One `if WIDGET::parent_id() == Some(#parent_id)` branch of the
`add_widget` dispatcher. -/
structure AddBranch where
  parentId : String
  name : String
  trait : ContainerTrait
deriving DecidableEq, Repr

/-- The synthesized `add_widget` method: the conditional chain over the
non-default entries in iteration order, and the fallback (else) branch
built from the default (`None`-keyed) entry. -/
structure AddWidgetMethod where
  branches : List AddBranch
  fallback : Option (String × ContainerTrait)
deriving DecidableEq, Repr

/-- The loop body of `gen_add_widget_method`: a `None` key rewrites the
default (fallback) tokens, any other key appends a conditional branch. -/
def add_widget_step (m : AddWidgetMethod) (kv : Option String × (String × GenPath)) :
    AddWidgetMethod :=
  match kv.1 with
  | none => { m with fallback := some (kv.2.1, container_trait_for kv.2.2) }
  | some parentId =>
    { m with branches := m.branches ++ [⟨parentId, kv.2.1, container_trait_for kv.2.2⟩] }

/-- `gen_add_widget_method`: emits the dispatcher only when more than one
entry is registered, folding the registry entries in iteration order. -/
def gen_add_widget_method (containerNames : List (Option String × (String × GenPath))) :
    Option AddWidgetMethod :=
  if containerNames.length > 1 then
    some (containerNames.foldl add_widget_step ⟨[], none⟩)
  else
    none

/-- The container trait implementation fragment emitted by
`gen_container_impl`: the implemented-for type, the associated
`Container` type and default container field, and the optional
`add_widget` dispatcher. -/
structure ContainerImpl where
  widgetType : WidgetTypeRef
  containerType : GenPath
  containerName : String
  addWidget : Option AddWidgetMethod
deriving DecidableEq, Repr

/-- The loop in `gen_container_impl` that picks the associated container
type: the type of the last `None`-keyed entry seen in iteration order. -/
def find_container_type (l : List (Option String × (String × GenPath))) : Option GenPath :=
  l.foldl (fun acc kv => if kv.1 = none then some kv.2.2 else acc) none

/-- `gen_container_impl`: nothing for an empty registry; a panic
(`missingDefaultContainer`) for a non-empty registry without a default
entry; otherwise the trait implementation fragment.  `gen_widget_type` is
evaluated first, as in the source.  The ambient generic parameters of the
driver are only spliced verbatim and are not modelled. -/
def gen_container_impl (containerNames : List (Option String × (String × GenPath)))
    (w : Widget) : Except GenError (Option ContainerImpl) :=
  match gen_widget_type w with
  | .error e => .error e
  | .ok widgetType =>
    if containerNames.isEmpty then .ok none
    else if (lookupContainer containerNames none).isSome = false then
      .error .missingDefaultContainer
    else
      match find_container_type containerNames with
      | none => .error (.internalExpect "container type")
      | some typ =>
        match lookupContainer containerNames none with
        | none => .error (.internalExpect "default container")
        | some (defaultName, _) =>
          .ok (some ⟨widgetType, typ, defaultName, gen_add_widget_method containerNames⟩)

/-- The output of `gen`: the final generator state (which carries the
`relm_widgets` component-type mapping, the event-wiring blocks and the
driver record), the emitted widget construction statements, and the
optional container implementation fragment.  The surrounding
`Rc<RefCell<..>>` assembly boilerplate of `gen` only splices these pieces
(plus fields of the external driver) and is not modelled further. -/
structure GenResult where
  state : GenState
  code : List Stmt
  containerImpl : Option ContainerImpl
deriving DecidableEq, Repr

/-- The top-level `gen`: walk the tree from the root (no parent, `IsGtk`
as the initial parent kind), require the recorded root
(`.expect("root_widget is None")`, the spec's `MissingRoot`), then
synthesize the container implementation. -/
def gen (w : Widget) : Except GenError GenResult :=
  match walkWidget w none .isGtk initGenState with
  | .error e => .error e
  | .ok (s, code) =>
    match s.driver.rootWidget with
    | none => .error .missingRoot
    | some _ =>
      match gen_container_impl s.containerNames w with
      | .error e => .error e
      | .ok ci => .ok ⟨s, code, ci⟩

mutual

/-- The container discriminants declared in a widget tree, in the order
the walker registers them (node first, then its children in declaration
order). -/
def declaredKeys : Widget → List (Option String)
  | .mk _ _ _ _ _ ct children _ =>
    (match ct with | some d => [d] | none => []) ++ declaredKeysList children

/-- `declaredKeys` over a list of sibling subtrees. -/
def declaredKeysList : List Widget → List (Option String)
  | [] => []
  | c :: cs => declaredKeys c ++ declaredKeysList cs

end

/-- Whether a Gtk event binding avoids the `unreachable!` arm of
`collect_event` (no return shape on a foreign-widget binding). -/
def validGtkShape (e : Event) : Bool :=
  match e.value with
  | .foreignWidget _ (.ret _ _) => false
  | .foreignWidget _ (.callReturn _) => false
  | _ => true

/-- Whether a Relm event binding avoids the `unreachable!` arm of
`collect_relm_events` (only `WithoutReturn` shapes are accepted). -/
def validRelmShape (e : Event) : Bool :=
  match e.value with
  | .currentWidget (.withoutReturn _) => true
  | .foreignWidget _ (.withoutReturn _) => true
  | _ => false

mutual

/-- Whether every event binding in the tree has a shape its widget kind
accepts, so that no event collection can fail. -/
def validShapes : Widget → Bool
  | .mk _ _ _ _ _ _ children ew =>
    (match ew with
     | .gtk g =>
       g.events.all (fun ne => validGtkShape ne.2) &&
         g.childEvents.all (fun ne => validGtkShape ne.2)
     | .relm r =>
       r.events.all (fun ne => ne.2.all validRelmShape)) &&
    validShapesList children

/-- `validShapes` over a list of sibling subtrees. -/
def validShapesList : List Widget → Bool
  | [] => true
  | c :: cs => validShapes c && validShapesList cs

end

/-- Keys of the container registry, in iteration order. -/
def GenState.containerKeys (s : GenState) : List (Option String) :=
  s.containerNames.map Prod.fst

/-- The discriminant keys a single node registers (none or one). -/
def ctKeys : Option (Option String) → List (Option String)
  | some d => [d]
  | none => []

/-- The root type the walker records for a parentless node of each kind. -/
def rootTypeOf (w : Widget) : RootType :=
  match w.widget with
  | .gtk _ => .gtkType w.typ
  | .relm _ => .relmRoot w.typ

/-- The root accessor expression the walker records for a parentless node
of each kind. -/
def rootExprOf (w : Widget) : RootExpr :=
  match w.widget with
  | .gtk _ => .plain w.name
  | .relm _ => .widgetRoot w.name

/-- The non-default branches `gen_add_widget_method` accumulates, in
iteration order (specification of the fold over the branch field). -/
def addBranchesOf (l : List (Option String × (String × GenPath))) : List AddBranch :=
  l.filterMap fun kv =>
    match kv.1 with
    | some parentId => some ⟨parentId, kv.2.1, container_trait_for kv.2.2⟩
    | none => none

/-- The fallback branch `gen_add_widget_method` ends with: the last
`None`-keyed entry seen in iteration order (specification of the fold over
the fallback field). -/
def fallbackOf : List (Option String × (String × GenPath)) → Option (String × ContainerTrait)
  | [] => none
  | kv :: rest =>
    match fallbackOf rest with
    | some f => some f
    | none =>
      match kv.1 with
      | none => some (kv.2.1, container_trait_for kv.2.2)
      | some _ => none

/-! Concrete inputs used by the claim witnesses and counterexamples. -/

/-- Gtk node data with no events, `save = false`, and a driver-assigned
`relm_name`. -/
def exGtkData : GtkWidgetData := ⟨[], [], false, some "MainWin"⟩

/-- A plain Gtk label node. -/
def exLabel : Widget := .mk "lbl" (.raw "gtk" ["Label"]) [] [] [] none [] (.gtk exGtkData)

/-- A Relm node with a `visible` property and one Gtk child. -/
def exRelmVisible : Widget :=
  .mk "comp" (.raw "Comp" []) [("visible", "true")] [] [] none [exLabel] (.relm ⟨[]⟩)

/-- A `CurrentWidget(CallReturn(..))` binding, invalid on Relm widgets. -/
def exBadEvent : Event := ⟨[], .currentWidget (.callReturn "callback"), false⟩

/-- A Relm node declaring the invalid binding `exBadEvent`. -/
def exRelmBad : Widget :=
  .mk "comp2" (.raw "Comp" []) [] [] [] none [] (.relm ⟨[("ping", [exBadEvent])]⟩)

/-- The `gtk::Box` path. -/
def pathGtkBox : GenPath := .raw "gtk" ["Box"]

/-- A registry with a default entry and two named entries, in one
iteration order the backing hash map may present. -/
def exRegistryA : List (Option String × (String × GenPath)) :=
  [(none, ("cont", pathGtkBox)), (some "left", ("lbox", pathGtkBox)),
   (some "right", ("rbox", pathGtkBox))]

/-- The same registry contents as `exRegistryA` in another iteration
order. -/
def exRegistryB : List (Option String × (String × GenPath)) :=
  [(none, ("cont", pathGtkBox)), (some "right", ("rbox", pathGtkBox)),
   (some "left", ("lbox", pathGtkBox))]

/-- A plain `CurrentWidget(WithoutReturn(..))` click binding. -/
def exClickEvent : Event := ⟨[], .currentWidget (.withoutReturn "Clicked"), false⟩

/-- A plain `CurrentWidget(WithoutReturn(..))` press binding. -/
def exPressEvent : Event := ⟨[], .currentWidget (.withoutReturn "Pressed"), false⟩

/-- Two bindings declared on the same widget. -/
def exSaveEvents : List (String × Event) :=
  [("clicked", exClickEvent), ("press", exPressEvent)]

/-- A Gtk node with non-empty constructor parameters. -/
def exEntry : Widget :=
  .mk "entry" (.raw "gtk" ["Entry"]) [] [] ["param1", "param2"] none [] (.gtk exGtkData)

/-- A Gtk node declaring the default attachment point. -/
def exDupDefaultChild : Widget :=
  .mk "vbox" pathGtkBox [] [] [] (some none) [] (.gtk exGtkData)

/-- A tree whose root and child both declare the default attachment
point. -/
def exDupDefaultTree : Widget :=
  .mk "win" (.raw "gtk" ["Window"]) [] [] [] (some none) [exDupDefaultChild]
    (.gtk exGtkData)

/-- A tree declaring a named attachment point and no default one. -/
def exNamedOnlyTree : Widget :=
  .mk "win2" (.raw "gtk" ["Window"]) [] [] [] (some (some "tab")) [] (.gtk exGtkData)

/-- A small well-formed tree: a Gtk window with a title property and one
label child. -/
def exTree : Widget :=
  .mk "win3" (.raw "gtk" ["Window"]) [("title", "t")] [] [] none [exLabel]
    (.gtk exGtkData)

/-- A Relm root node (so that `gen_widget_type` succeeds trivially). -/
def exContainerWidget : Widget := .mk "app" (.raw "App" []) [] [] [] none [] (.relm ⟨[]⟩)

/-- A Gtk window with a `visible` property, a second property and one
label child. -/
def exGtkVisible : Widget :=
  .mk "win4" (.raw "gtk" ["Window"]) [("visible", "true"), ("title", "t")] [] [] none
    [exLabel] (.gtk exGtkData)

/-! Helper lemmas about the registry and the event collectors. -/

theorem lookupContainer_isSome_iff (l : List (Option String × (String × GenPath)))
    (k : Option String) :
    (lookupContainer l k).isSome = true ↔ k ∈ l.map Prod.fst := by
  induction l with
  | nil => simp [lookupContainer]
  | cons kv rest ih =>
    by_cases hk : kv.1 = k
    · simp [lookupContainer, hk]
    · simp [lookupContainer, hk, ih, Ne.symm hk]

theorem set_container_ok (s : GenState) (ct : Option (Option String)) (name : String)
    (typ : GenPath) (s' : GenState) (h : set_container s ct name typ = .ok s') :
    s'.containerKeys = s.containerKeys ++ ctKeys ct ∧
    (∀ k ∈ ctKeys ct, k ∉ s.containerKeys) ∧
    s'.events = s.events ∧ s'.driver = s.driver ∧ s'.widgetNames = s.widgetNames := by
  cases ct with
  | none =>
    simp only [set_container] at h
    cases h
    simp [ctKeys]
  | some d =>
    simp only [set_container] at h
    by_cases hd : (lookupContainer s.containerNames d).isSome = true
    · simp [hd] at h
    · simp only [Bool.not_eq_true] at hd
      simp [hd] at h
      cases h
      have hmem : d ∉ s.containerNames.map Prod.fst := by
        rw [← lookupContainer_isSome_iff]
        simp [hd]
      refine ⟨?_, ?_, rfl, rfl, rfl⟩
      · simp [GenState.containerKeys, ctKeys]
      · intro k hk
        simp [ctKeys] at hk
        subst hk
        exact hmem

theorem collect_event_error (widgetName : String) (save : Bool) (name : String)
    (event : Event) (e : GenError)
    (h : collect_event widgetName save name event = .error e) :
    e = .unsupportedGtkForeignReturn := by
  cases event with
  | mk params value useSelf =>
    cases value with
    | currentWidget v => cases v <;> simp [collect_event] at h
    | foreignWidget f v =>
      cases v with
      | withoutReturn x => simp [collect_event] at h
      | ret x y => simp [collect_event] at h; exact h.symm
      | callReturn x => simp [collect_event] at h; exact h.symm

theorem collect_event_ok_of_valid (widgetName : String) (save : Bool) (name : String)
    (event : Event) (hv : validGtkShape event = true) :
    ∃ st, collect_event widgetName save name event = .ok st ∧ st.clone = save := by
  cases event with
  | mk params value useSelf =>
    cases value with
    | currentWidget v => cases v <;> exact ⟨_, rfl, rfl⟩
    | foreignWidget f v =>
      cases v with
      | withoutReturn x => exact ⟨_, rfl, rfl⟩
      | ret x y => simp [validGtkShape] at hv
      | callReturn x => simp [validGtkShape] at hv

theorem collect_event_clone (widgetName : String) (save : Bool) (name : String)
    (event : Event) (st : EventStmt)
    (h : collect_event widgetName save name event = .ok st) : st.clone = save := by
  cases event with
  | mk params value useSelf =>
    cases value with
    | currentWidget v =>
      cases v <;> simp only [collect_event] at h <;> cases h <;> rfl
    | foreignWidget f v =>
      cases v with
      | withoutReturn x => simp only [collect_event] at h; cases h; rfl
      | ret x y => simp only [collect_event] at h; cases h
      | callReturn x => simp only [collect_event] at h; cases h

theorem collect_gtk_events_clone (widgetName : String) (save : Bool)
    (evts : List (String × Event)) (out : List EventStmt)
    (h : collect_gtk_events widgetName save evts = .ok out) :
    out.length = evts.length ∧ ∀ st ∈ out, st.clone = save := by
  induction evts generalizing out with
  | nil =>
    simp only [collect_gtk_events] at h
    cases h
    simp
  | cons ne rest ih =>
    obtain ⟨name, event⟩ := ne
    simp only [collect_gtk_events] at h
    cases hc : collect_event widgetName save name event with
    | error e => rw [hc] at h; cases h
    | ok st =>
      rw [hc] at h
      cases hr : collect_gtk_events widgetName save rest with
      | error e => rw [hr] at h; cases h
      | ok sts =>
        rw [hr] at h
        cases h
        obtain ⟨hlen, hall⟩ := ih sts hr
        constructor
        · simp [hlen]
        · intro st' hst'
          rcases List.mem_cons.mp hst' with h1 | h2
          · subst h1
            exact collect_event_clone widgetName save name event _ hc
          · exact hall st' h2

theorem collect_gtk_events_error (widgetName : String) (save : Bool)
    (evts : List (String × Event)) (e : GenError)
    (h : collect_gtk_events widgetName save evts = .error e) :
    e = .unsupportedGtkForeignReturn := by
  induction evts with
  | nil => simp [collect_gtk_events] at h
  | cons ne rest ih =>
    obtain ⟨name, event⟩ := ne
    simp only [collect_gtk_events] at h
    cases hc : collect_event widgetName save name event with
    | error e' =>
      rw [hc] at h
      cases h
      exact collect_event_error widgetName save name event _ hc
    | ok st =>
      rw [hc] at h
      cases hr : collect_gtk_events widgetName save rest with
      | error e' => rw [hr] at h; cases h; exact ih hr
      | ok sts => rw [hr] at h; cases h

theorem collect_gtk_child_events_error (widgetName : String)
    (evts : List ((String × String) × Event)) (e : GenError)
    (h : collect_gtk_child_events widgetName evts = .error e) :
    e = .unsupportedGtkForeignReturn := by
  induction evts with
  | nil => simp [collect_gtk_child_events] at h
  | cons ne rest ih =>
    obtain ⟨⟨childName, name⟩, event⟩ := ne
    simp only [collect_gtk_child_events] at h
    cases hc : collect_event (widgetName ++ ".get_" ++ childName ++ "()") false name event with
    | error e' =>
      rw [hc] at h
      cases h
      exact collect_event_error _ false name event _ hc
    | ok st =>
      rw [hc] at h
      cases hr : collect_gtk_child_events widgetName rest with
      | error e' => rw [hr] at h; cases h; exact ih hr
      | ok sts => rw [hr] at h; cases h

theorem collect_events_error (widgetName : String) (g : GtkWidgetData) (e : GenError)
    (h : collect_events widgetName g = .error e) :
    e = .unsupportedGtkForeignReturn := by
  simp only [collect_events] at h
  cases h1 : collect_gtk_events widgetName g.save g.events with
  | error e' =>
    rw [h1] at h
    cases h
    exact collect_gtk_events_error _ _ _ _ h1
  | ok evs1 =>
    rw [h1] at h
    cases h2 : collect_gtk_child_events widgetName g.childEvents with
    | error e' => rw [h2] at h; cases h; exact collect_gtk_child_events_error _ _ _ h2
    | ok evs2 => rw [h2] at h; cases h

theorem collect_relm_event_error (widgetName : String) (name : String) (event : Event)
    (e : GenError) (h : collect_relm_event widgetName name event = .error e) :
    e = .unsupportedEventShape := by
  cases event with
  | mk params value useSelf =>
    cases value with
    | currentWidget v =>
      cases v with
      | withoutReturn x => simp [collect_relm_event] at h
      | ret x y => simp [collect_relm_event] at h; exact h.symm
      | callReturn x => simp [collect_relm_event] at h; exact h.symm
    | foreignWidget f v =>
      cases v with
      | withoutReturn x => simp [collect_relm_event] at h
      | ret x y => simp [collect_relm_event] at h; exact h.symm
      | callReturn x => simp [collect_relm_event] at h; exact h.symm

theorem collect_relm_event_list_error (widgetName : String) (name : String)
    (evts : List Event) (e : GenError)
    (h : collect_relm_event_list widgetName name evts = .error e) :
    e = .unsupportedEventShape := by
  induction evts with
  | nil => simp [collect_relm_event_list] at h
  | cons event rest ih =>
    simp only [collect_relm_event_list] at h
    cases hc : collect_relm_event widgetName name event with
    | error e' =>
      rw [hc] at h
      cases h
      exact collect_relm_event_error _ _ _ _ hc
    | ok st =>
      rw [hc] at h
      cases hr : collect_relm_event_list widgetName name rest with
      | error e' => rw [hr] at h; cases h; exact ih hr
      | ok sts => rw [hr] at h; cases h

theorem collect_relm_events_error (widgetName : String)
    (evts : List (String × List Event)) (e : GenError)
    (h : collect_relm_events widgetName evts = .error e) :
    e = .unsupportedEventShape := by
  induction evts with
  | nil => simp [collect_relm_events] at h
  | cons ne rest ih =>
    obtain ⟨name, events⟩ := ne
    simp only [collect_relm_events] at h
    cases hc : collect_relm_event_list widgetName name events with
    | error e' =>
      rw [hc] at h
      cases h
      exact collect_relm_event_list_error _ _ _ _ hc
    | ok sts1 =>
      rw [hc] at h
      cases hr : collect_relm_events widgetName rest with
      | error e' => rw [hr] at h; cases h; exact ih hr
      | ok sts2 => rw [hr] at h; cases h

/-! State-effect lemmas for the walker's intermediate states. -/

theorem gtkMidState_containerNames (s1 : GenState) (name : String) (typ : GenPath)
    (g : GtkWidgetData) (evs : List EventStmt) :
    (gtkMidState s1 name typ g evs).containerNames = s1.containerNames := by
  simp only [gtkMidState]
  cases g.save <;> simp

theorem gtkMidState_driver (s1 : GenState) (name : String) (typ : GenPath)
    (g : GtkWidgetData) (evs : List EventStmt) :
    (gtkMidState s1 name typ g evs).driver = s1.driver := by
  simp only [gtkMidState]
  cases g.save <;> simp

theorem relmMidState_containerNames (s2 : GenState) (name : String) (typ : GenPath)
    (evs : List EventStmt) :
    (relmMidState s2 name typ evs).containerNames = s2.containerNames := rfl

theorem relmMidState_driver (s2 : GenState) (name : String) (typ : GenPath)
    (evs : List EventStmt) :
    (relmMidState s2 name typ evs).driver = s2.driver := rfl

theorem add_child_or_show_all_containerNames (s : GenState) (name : String)
    (typ : GenPath) (parent : Option String) (parentKind : WidgetKind) :
    (add_child_or_show_all s name typ parent parentKind).1.containerNames =
      s.containerNames := by
  cases parent <;> rfl

theorem add_child_or_show_all_some (s : GenState) (name : String) (typ : GenPath)
    (p : String) (parentKind : WidgetKind) :
    (add_child_or_show_all s name typ (some p) parentKind).1 = s := rfl

theorem add_child_or_show_all_none_driver (s : GenState) (name : String)
    (typ : GenPath) (parentKind : WidgetKind) :
    (add_child_or_show_all s name typ none parentKind).1.driver =
      { rootWidgetType := some (.gtkType typ)
        rootWidget := some name
        rootWidgetExpr := some (.plain name)
        rootLog := s.driver.rootLog ++ [name] } := rfl

theorem add_or_create_widget_containerNames (s : GenState) (parent : Option String)
    (parentKind : WidgetKind) (name : String) (typ : GenPath) (initp : List GenExpr) :
    (add_or_create_widget s parent parentKind name typ initp).1.containerNames =
      s.containerNames := by
  cases parent <;> rfl

theorem add_or_create_widget_some (s : GenState) (p : String)
    (parentKind : WidgetKind) (name : String) (typ : GenPath) (initp : List GenExpr) :
    (add_or_create_widget s (some p) parentKind name typ initp).1 = s := rfl

theorem add_or_create_widget_none_driver (s : GenState) (parentKind : WidgetKind)
    (name : String) (typ : GenPath) (initp : List GenExpr) :
    (add_or_create_widget s none parentKind name typ initp).1.driver =
      { rootWidgetType := some (.relmRoot typ)
        rootWidget := some name
        rootWidgetExpr := some (.widgetRoot name)
        rootLog := s.driver.rootLog ++ [name] } := rfl

/-! Driver preservation: walking a widget that has a parent never touches
the driver (the compilation context), so only the parentless node can
record a root. -/

mutual

theorem walkWidget_driver : ∀ (w : Widget) (pn : String) (pk : WidgetKind)
    (s s' : GenState) (ts : List Stmt),
    walkWidget w (some pn) pk s = .ok (s', ts) → s'.driver = s.driver
  | .mk name typ props cprops initp ct children ew, pn, pk, s, s', ts, h => by
    rw [walkWidget.eq_def] at h
    simp only at h
    cases ew with
    | gtk g =>
      simp only at h
      split at h
      · cases h
      · rename_i s1 heq1
        split at h
        · cases h
        · rename_i evs heq2
          split at h
          · cases h
          · rename_i s5 childStmts heq3
            cases h
            have h5 := walkChildren_driver children name .isGtk
              (gtkMidState s1 name typ g evs) s5 childStmts heq3
            rw [add_child_or_show_all_some, h5, gtkMidState_driver]
            exact (set_container_ok s ct name typ s1 heq1).2.2.2.1
    | relm r =>
      simp only at h
      split at h
      · cases h
      · rename_i s2 heq1
        split at h
        · cases h
        · rename_i evs heq2
          split at h
          · cases h
          · rename_i s5 childStmts heq3
            cases h
            have h5 := walkChildren_driver children name .isRelm
              (relmMidState s2 name typ evs) s5 childStmts heq3
            rw [add_or_create_widget_some, h5, relmMidState_driver]
            exact (set_container_ok _ ct name typ s2 heq1).2.2.2.1

theorem walkChildren_driver : ∀ (ws : List Widget) (pn : String) (pk : WidgetKind)
    (s s' : GenState) (ts : List Stmt),
    walkChildren ws pn pk s = .ok (s', ts) → s'.driver = s.driver
  | [], pn, pk, s, s', ts, h => by
    rw [walkChildren] at h
    cases h
    rfl
  | c :: cs, pn, pk, s, s', ts, h => by
    rw [walkChildren] at h
    split at h
    · cases h
    · rename_i s1 ts1 heq1
      split at h
      · cases h
      · rename_i s2 ts2 heq2
        cases h
        rw [walkChildren_driver cs pn pk s1 _ _ heq2,
          walkWidget_driver c pn pk s s1 ts1 heq1]

end

/-! Registry-key bookkeeping: a successful walk appends exactly the
declared discriminants of the subtree to the registry, and their
registration succeeds only when they are pairwise distinct and fresh. -/

theorem declaredKeys_mk (name : String) (typ : GenPath)
    (props cprops : List (String × GenExpr)) (initp : List GenExpr)
    (ct : Option (Option String)) (children : List Widget) (ew : EitherWidget) :
    declaredKeys (.mk name typ props cprops initp ct children ew) =
      ctKeys ct ++ declaredKeysList children := by
  cases ct <;> rfl

theorem gtkMidState_containerKeys (s1 : GenState) (name : String) (typ : GenPath)
    (g : GtkWidgetData) (evs : List EventStmt) :
    (gtkMidState s1 name typ g evs).containerKeys = s1.containerKeys := by
  simp only [GenState.containerKeys, gtkMidState_containerNames]

theorem relmMidState_containerKeys (s2 : GenState) (name : String) (typ : GenPath)
    (evs : List EventStmt) :
    (relmMidState s2 name typ evs).containerKeys = s2.containerKeys := rfl

theorem add_child_or_show_all_containerKeys (s : GenState) (name : String)
    (typ : GenPath) (parent : Option String) (parentKind : WidgetKind) :
    (add_child_or_show_all s name typ parent parentKind).1.containerKeys =
      s.containerKeys := by
  simp only [GenState.containerKeys, add_child_or_show_all_containerNames]

theorem add_or_create_widget_containerKeys (s : GenState) (parent : Option String)
    (parentKind : WidgetKind) (name : String) (typ : GenPath) (initp : List GenExpr) :
    (add_or_create_widget s parent parentKind name typ initp).1.containerKeys =
      s.containerKeys := by
  simp only [GenState.containerKeys, add_or_create_widget_containerNames]

theorem pushName_containerKeys (s : GenState) (name : String) :
    ({ s with widgetNames := s.widgetNames ++ [name] } : GenState).containerKeys =
      s.containerKeys := rfl

theorem ctKeys_nodup (ct : Option (Option String)) : (ctKeys ct).Nodup := by
  cases ct <;> simp [ctKeys]

mutual

theorem walkWidget_keys : ∀ (w : Widget) (p : Option String) (pk : WidgetKind)
    (s s' : GenState) (ts : List Stmt),
    walkWidget w p pk s = .ok (s', ts) →
    s'.containerKeys = s.containerKeys ++ declaredKeys w ∧
    (declaredKeys w).Nodup ∧
    ∀ k ∈ declaredKeys w, k ∉ s.containerKeys
  | .mk name typ props cprops initp ct children ew, p, pk, s, s', ts, h => by
    rw [walkWidget.eq_def] at h
    simp only at h
    cases ew with
    | gtk g =>
      simp only at h
      split at h
      · cases h
      · rename_i s1 heq1
        split at h
        · cases h
        · rename_i evs heq2
          split at h
          · cases h
          · rename_i s5 childStmts heq3
            cases h
            obtain ⟨hk1, hfresh1, _, _, _⟩ := set_container_ok s ct name typ s1 heq1
            obtain ⟨hk2, hnd2, hfresh2⟩ := walkChildren_keys children name .isGtk
              (gtkMidState s1 name typ g evs) s5 childStmts heq3
            rw [gtkMidState_containerKeys, hk1] at hk2
            rw [gtkMidState_containerKeys, hk1] at hfresh2
            rw [declaredKeys_mk]
            refine ⟨?_, ?_, ?_⟩
            · rw [add_child_or_show_all_containerKeys, hk2, List.append_assoc]
            · refine List.Nodup.append (ctKeys_nodup ct) hnd2 ?_
              intro k hk hk'
              exact hfresh2 k hk' (by simp [hk])
            · intro k hk
              rcases List.mem_append.mp hk with h1 | h2
              · exact hfresh1 k h1
              · intro hmem
                exact hfresh2 k h2 (by simp [hmem])
    | relm r =>
      simp only at h
      split at h
      · cases h
      · rename_i s2 heq1
        split at h
        · cases h
        · rename_i evs heq2
          split at h
          · cases h
          · rename_i s5 childStmts heq3
            cases h
            obtain ⟨hk1, hfresh1, _, _, _⟩ := set_container_ok _ ct name typ s2 heq1
            rw [pushName_containerKeys] at hk1 hfresh1
            obtain ⟨hk2, hnd2, hfresh2⟩ := walkChildren_keys children name .isRelm
              (relmMidState s2 name typ evs) s5 childStmts heq3
            rw [relmMidState_containerKeys, hk1] at hk2
            rw [relmMidState_containerKeys, hk1] at hfresh2
            rw [declaredKeys_mk]
            refine ⟨?_, ?_, ?_⟩
            · rw [add_or_create_widget_containerKeys, hk2, List.append_assoc]
            · refine List.Nodup.append (ctKeys_nodup ct) hnd2 ?_
              intro k hk hk'
              exact hfresh2 k hk' (by simp [hk])
            · intro k hk
              rcases List.mem_append.mp hk with h1 | h2
              · exact hfresh1 k h1
              · intro hmem
                exact hfresh2 k h2 (by simp [hmem])

theorem walkChildren_keys : ∀ (ws : List Widget) (pn : String) (pk : WidgetKind)
    (s s' : GenState) (ts : List Stmt),
    walkChildren ws pn pk s = .ok (s', ts) →
    s'.containerKeys = s.containerKeys ++ declaredKeysList ws ∧
    (declaredKeysList ws).Nodup ∧
    ∀ k ∈ declaredKeysList ws, k ∉ s.containerKeys
  | [], pn, pk, s, s', ts, h => by
    rw [walkChildren] at h
    cases h
    simp [declaredKeysList]
  | c :: cs, pn, pk, s, s', ts, h => by
    rw [walkChildren] at h
    split at h
    · cases h
    · rename_i s1 ts1 heq1
      split at h
      · cases h
      · rename_i s2 ts2 heq2
        cases h
        obtain ⟨hk1, hnd1, hfresh1⟩ := walkWidget_keys c (some pn) pk s s1 ts1 heq1
        obtain ⟨hk2, hnd2, hfresh2⟩ := walkChildren_keys cs pn pk s1 _ _ heq2
        rw [hk1] at hk2 hfresh2
        simp only [declaredKeysList]
        refine ⟨?_, ?_, ?_⟩
        · rw [hk2, List.append_assoc]
        · refine List.Nodup.append hnd1 hnd2 ?_
          intro k hk hk'
          exact hfresh2 k hk' (by simp [hk])
        · intro k hk
          rcases List.mem_append.mp hk with h1 | h2
          · exact hfresh1 k h1
          · intro hmem
            exact hfresh2 k h2 (by simp [hmem])

end

/-! Error characterization: with well-shaped event bindings, the only
error the walker can produce is a duplicate container discriminant. -/

theorem set_container_error (s : GenState) (ct : Option (Option String))
    (name : String) (typ : GenPath) (e : GenError)
    (h : set_container s ct name typ = .error e) :
    ∃ d, e = .duplicateContainerAttribute d := by
  cases ct with
  | none => simp [set_container] at h
  | some d =>
    simp only [set_container] at h
    by_cases hd : (lookupContainer s.containerNames d).isSome = true
    · simp [hd] at h
      exact ⟨d, h.symm⟩
    · simp only [Bool.not_eq_true] at hd
      simp [hd] at h

theorem collect_gtk_events_ok_of_valid (widgetName : String) (save : Bool) :
    ∀ evts : List (String × Event),
    evts.all (fun ne => validGtkShape ne.2) = true →
    ∃ out, collect_gtk_events widgetName save evts = .ok out
  | [], _ => ⟨[], rfl⟩
  | (name, event) :: rest, hv => by
    simp only [List.all_cons, Bool.and_eq_true] at hv
    obtain ⟨st, hc, _⟩ := collect_event_ok_of_valid widgetName save name event hv.1
    obtain ⟨out, hr⟩ := collect_gtk_events_ok_of_valid widgetName save rest hv.2
    exact ⟨st :: out, by simp [collect_gtk_events, hc, hr]⟩

theorem collect_gtk_child_events_ok_of_valid (widgetName : String) :
    ∀ evts : List ((String × String) × Event),
    evts.all (fun ne => validGtkShape ne.2) = true →
    ∃ out, collect_gtk_child_events widgetName evts = .ok out
  | [], _ => ⟨[], rfl⟩
  | ((childName, name), event) :: rest, hv => by
    simp only [List.all_cons, Bool.and_eq_true] at hv
    obtain ⟨st, hc, _⟩ := collect_event_ok_of_valid
      (widgetName ++ ".get_" ++ childName ++ "()") false name event hv.1
    obtain ⟨out, hr⟩ := collect_gtk_child_events_ok_of_valid widgetName rest hv.2
    exact ⟨st :: out, by simp [collect_gtk_child_events, hc, hr]⟩

theorem collect_events_ok_of_valid (widgetName : String) (g : GtkWidgetData)
    (hv1 : g.events.all (fun ne => validGtkShape ne.2) = true)
    (hv2 : g.childEvents.all (fun ne => validGtkShape ne.2) = true) :
    ∃ out, collect_events widgetName g = .ok out := by
  obtain ⟨out1, h1⟩ := collect_gtk_events_ok_of_valid widgetName g.save g.events hv1
  obtain ⟨out2, h2⟩ := collect_gtk_child_events_ok_of_valid widgetName g.childEvents hv2
  exact ⟨out1 ++ out2, by simp [collect_events, h1, h2]⟩

theorem collect_relm_event_ok_of_valid (widgetName : String) (name : String)
    (event : Event) (hv : validRelmShape event = true) :
    ∃ st, collect_relm_event widgetName name event = .ok st := by
  cases event with
  | mk params value useSelf =>
    cases value with
    | currentWidget v =>
      cases v with
      | withoutReturn x => exact ⟨_, rfl⟩
      | ret x y => simp [validRelmShape] at hv
      | callReturn x => simp [validRelmShape] at hv
    | foreignWidget f v =>
      cases v with
      | withoutReturn x => exact ⟨_, rfl⟩
      | ret x y => simp [validRelmShape] at hv
      | callReturn x => simp [validRelmShape] at hv

theorem collect_relm_event_list_ok_of_valid (widgetName : String) (name : String) :
    ∀ evts : List Event, evts.all validRelmShape = true →
    ∃ out, collect_relm_event_list widgetName name evts = .ok out
  | [], _ => ⟨[], rfl⟩
  | event :: rest, hv => by
    simp only [List.all_cons, Bool.and_eq_true] at hv
    obtain ⟨st, hc⟩ := collect_relm_event_ok_of_valid widgetName name event hv.1
    obtain ⟨out, hr⟩ := collect_relm_event_list_ok_of_valid widgetName name rest hv.2
    exact ⟨st :: out, by simp [collect_relm_event_list, hc, hr]⟩

theorem collect_relm_events_ok_of_valid (widgetName : String) :
    ∀ evts : List (String × List Event),
    evts.all (fun ne => ne.2.all validRelmShape) = true →
    ∃ out, collect_relm_events widgetName evts = .ok out
  | [], _ => ⟨[], rfl⟩
  | (name, events) :: rest, hv => by
    simp only [List.all_cons, Bool.and_eq_true] at hv
    obtain ⟨out1, hc⟩ := collect_relm_event_list_ok_of_valid widgetName name events hv.1
    obtain ⟨out2, hr⟩ := collect_relm_events_ok_of_valid widgetName rest hv.2
    exact ⟨out1 ++ out2, by simp [collect_relm_events, hc, hr]⟩

mutual

theorem walkWidget_error : ∀ (w : Widget) (p : Option String) (pk : WidgetKind)
    (s : GenState) (e : GenError),
    validShapes w = true → walkWidget w p pk s = .error e →
    ∃ d, e = .duplicateContainerAttribute d
  | .mk name typ props cprops initp ct children ew, p, pk, s, e, hv, h => by
    rw [walkWidget.eq_def] at h
    simp only at h
    cases ew with
    | gtk g =>
      simp only [validShapes, Bool.and_eq_true] at hv
      obtain ⟨⟨hv1, hv2⟩, hvc⟩ := hv
      simp only at h
      split at h
      · rename_i e' heq1
        cases h
        exact set_container_error s ct name typ e heq1
      · rename_i s1 heq1
        split at h
        · rename_i e' heq2
          obtain ⟨out, hok⟩ := collect_events_ok_of_valid name g hv1 hv2
          rw [hok] at heq2
          cases heq2
        · rename_i evs heq2
          split at h
          · rename_i e' heq3
            cases h
            exact walkChildren_error children name .isGtk
              (gtkMidState s1 name typ g evs) e hvc heq3
          · cases h
    | relm r =>
      simp only [validShapes, Bool.and_eq_true] at hv
      obtain ⟨hv1, hvc⟩ := hv
      simp only at h
      split at h
      · rename_i e' heq1
        cases h
        exact set_container_error _ ct name typ e heq1
      · rename_i s2 heq1
        split at h
        · rename_i e' heq2
          obtain ⟨out, hok⟩ := collect_relm_events_ok_of_valid name r.events hv1
          rw [hok] at heq2
          cases heq2
        · rename_i evs heq2
          split at h
          · rename_i e' heq3
            cases h
            exact walkChildren_error children name .isRelm
              (relmMidState s2 name typ evs) e hvc heq3
          · cases h

theorem walkChildren_error : ∀ (ws : List Widget) (pn : String) (pk : WidgetKind)
    (s : GenState) (e : GenError),
    validShapesList ws = true → walkChildren ws pn pk s = .error e →
    ∃ d, e = .duplicateContainerAttribute d
  | [], pn, pk, s, e, hv, h => by
    rw [walkChildren] at h
    cases h
  | c :: cs, pn, pk, s, e, hv, h => by
    simp only [validShapesList, Bool.and_eq_true] at hv
    rw [walkChildren] at h
    split at h
    · rename_i e' heq1
      cases h
      exact walkWidget_error c (some pn) pk s e hv.1 heq1
    · rename_i s1 ts1 heq1
      split at h
      · rename_i e' heq2
        cases h
        exact walkChildren_error cs pn pk s1 e hv.2 heq2
      · cases h

end

/-! Root recording: the parentless node writes the driver's root fields
exactly once. -/

theorem walkWidget_root (w : Widget) (pk : WidgetKind) (s s' : GenState)
    (ts : List Stmt) (h : walkWidget w none pk s = .ok (s', ts)) :
    s'.driver.rootWidget = some w.name ∧
    s'.driver.rootWidgetType = some (rootTypeOf w) ∧
    s'.driver.rootWidgetExpr = some (rootExprOf w) ∧
    s'.driver.rootLog = s.driver.rootLog ++ [w.name] := by
  cases w with
  | mk name typ props cprops initp ct children ew =>
    rw [walkWidget.eq_def] at h
    simp only at h
    cases ew with
    | gtk g =>
      simp only at h
      split at h
      · cases h
      · rename_i s1 heq1
        split at h
        · cases h
        · rename_i evs heq2
          split at h
          · cases h
          · rename_i s5 childStmts heq3
            cases h
            have h5 := walkChildren_driver children name .isGtk
              (gtkMidState s1 name typ g evs) s5 childStmts heq3
            rw [gtkMidState_driver] at h5
            have h1 := (set_container_ok s ct name typ s1 heq1).2.2.2.1
            rw [add_child_or_show_all_none_driver, h5, h1]
            simp [rootTypeOf, rootExprOf, Widget.name, Widget.typ, Widget.widget]
    | relm r =>
      simp only at h
      split at h
      · cases h
      · rename_i s2 heq1
        split at h
        · cases h
        · rename_i evs heq2
          split at h
          · cases h
          · rename_i s5 childStmts heq3
            cases h
            have h5 := walkChildren_driver children name .isRelm
              (relmMidState s2 name typ evs) s5 childStmts heq3
            rw [relmMidState_driver] at h5
            have h1 := (set_container_ok _ ct name typ s2 heq1).2.2.2.1
            rw [add_or_create_widget_none_driver, h5, h1]
            simp [rootTypeOf, rootExprOf, Widget.name, Widget.typ, Widget.widget]

/-! The split of `gen_set_prop_calls!` into non-visible and visible
setters. -/

theorem gen_set_prop_calls_snd (ident : TargetRef) :
    ∀ props : List (String × GenExpr),
    ∀ st ∈ (gen_set_prop_calls props ident).2,
    ∃ v, st = .setProp ident "set_visible" v
  | [], st, hst => by simp [gen_set_prop_calls] at hst
  | (key, value) :: rest, st, hst => by
    simp only [gen_set_prop_calls] at hst
    by_cases hk : key = "visible"
    · subst hk
      simp only [if_pos rfl] at hst
      rcases List.mem_cons.mp hst with h1 | h2
      · refine ⟨remover_fold_expr value, ?_⟩
        have hs : ("set_" ++ "visible" : String) = "set_visible" := by decide
        rw [h1, hs]
      · exact gen_set_prop_calls_snd ident rest st h2
    · simp only [if_neg hk] at hst
      exact gen_set_prop_calls_snd ident rest st hst

theorem gen_set_prop_calls_fst (ident : TargetRef) :
    ∀ props : List (String × GenExpr),
    ∀ st ∈ (gen_set_prop_calls props ident).1,
    ∃ k v, k ≠ "visible" ∧ st = .setProp ident ("set_" ++ k) v
  | [], st, hst => by simp [gen_set_prop_calls] at hst
  | (key, value) :: rest, st, hst => by
    simp only [gen_set_prop_calls] at hst
    by_cases hk : key = "visible"
    · subst hk
      simp only [if_pos rfl] at hst
      exact gen_set_prop_calls_fst ident rest st hst
    · simp only [if_neg hk] at hst
      rcases List.mem_cons.mp hst with h1 | h2
      · exact ⟨key, remover_fold_expr value, hk, by rw [h1]⟩
      · exact gen_set_prop_calls_fst ident rest st h2

/-! Structure of the `add_widget` dispatcher fold. -/

theorem foldl_add_widget_step (l : List (Option String × (String × GenPath))) :
    ∀ m : AddWidgetMethod,
    l.foldl add_widget_step m =
      ⟨m.branches ++ addBranchesOf l,
        match fallbackOf l with
        | some f => some f
        | none => m.fallback⟩ := by
  induction l with
  | nil => intro m; simp [addBranchesOf, fallbackOf]
  | cons kv rest ih =>
    intro m
    obtain ⟨k, v⟩ := kv
    cases k with
    | none =>
      simp only [List.foldl_cons, add_widget_step, ih]
      simp only [addBranchesOf, List.filterMap_cons, fallbackOf]
      cases fallbackOf rest <;> simp
    | some pid =>
      simp only [List.foldl_cons, add_widget_step, ih]
      simp only [addBranchesOf, List.filterMap_cons, fallbackOf]
      cases fallbackOf rest <;> simp

theorem gen_add_widget_method_spec (l : List (Option String × (String × GenPath))) :
    gen_add_widget_method l =
      if l.length > 1 then some ⟨addBranchesOf l, fallbackOf l⟩ else none := by
  simp only [gen_add_widget_method, foldl_add_widget_step]
  cases fallbackOf l <;> simp

theorem fallbackOf_none_of_not_mem (l : List (Option String × (String × GenPath)))
    (h : none ∉ l.map Prod.fst) : fallbackOf l = none := by
  induction l with
  | nil => rfl
  | cons kv rest ih =>
    simp only [List.map_cons, List.mem_cons] at h
    push_neg at h
    rw [fallbackOf, ih h.2]
    cases hk : kv.1 with
    | none => exact absurd hk.symm h.1
    | some p => simp

theorem lookupContainer_eq_of_mem (l : List (Option String × (String × GenPath)))
    (k : Option String) (v : String × GenPath) (hnd : (l.map Prod.fst).Nodup)
    (hmem : (k, v) ∈ l) : lookupContainer l k = some v := by
  induction l with
  | nil => simp at hmem
  | cons kv rest ih =>
    simp only [List.map_cons, List.nodup_cons] at hnd
    rcases List.mem_cons.mp hmem with h1 | h2
    · rw [← h1]
      simp [lookupContainer]
    · have hk : kv.1 ≠ k := by
        intro hkk
        exact hnd.1 (hkk ▸ (List.mem_map.mpr ⟨(k, v), h2, rfl⟩))
      rw [lookupContainer, if_neg hk]
      exact ih hnd.2 h2

theorem fallbackOf_eq_lookup (l : List (Option String × (String × GenPath)))
    (hnd : (l.map Prod.fst).Nodup) :
    fallbackOf l =
      (lookupContainer l none).map (fun v => (v.1, container_trait_for v.2)) := by
  induction l with
  | nil => rfl
  | cons kv rest ih =>
    simp only [List.map_cons, List.nodup_cons] at hnd
    cases hk : kv.1 with
    | none =>
      have hrest : none ∉ rest.map Prod.fst := by
        rw [← hk]; exact hnd.1
      rw [fallbackOf, fallbackOf_none_of_not_mem rest hrest, lookupContainer, if_pos hk]
      simp [hk]
    | some p =>
      rw [fallbackOf, ih hnd.2, lookupContainer, if_neg (by rw [hk]; simp)]
      cases lookupContainer rest none <;> simp [hk]

/-! Converses for the Relm event collector: success forces well-shaped
bindings, so an invalid shape always surfaces the diagnostic. -/

theorem collect_relm_event_valid_of_ok (widgetName : String) (name : String)
    (event : Event) (st : EventStmt)
    (h : collect_relm_event widgetName name event = .ok st) :
    validRelmShape event = true := by
  cases event with
  | mk params value useSelf =>
    cases value with
    | currentWidget v =>
      cases v with
      | withoutReturn x => rfl
      | ret x y => simp [collect_relm_event] at h
      | callReturn x => simp [collect_relm_event] at h
    | foreignWidget f v =>
      cases v with
      | withoutReturn x => rfl
      | ret x y => simp [collect_relm_event] at h
      | callReturn x => simp [collect_relm_event] at h

theorem collect_relm_event_list_valid_of_ok (widgetName : String) (name : String) :
    ∀ (evts : List Event) (out : List EventStmt),
    collect_relm_event_list widgetName name evts = .ok out →
    evts.all validRelmShape = true
  | [], _, _ => by simp
  | event :: rest, out, h => by
    simp only [collect_relm_event_list] at h
    cases hc : collect_relm_event widgetName name event with
    | error e => rw [hc] at h; cases h
    | ok st =>
      rw [hc] at h
      cases hr : collect_relm_event_list widgetName name rest with
      | error e => rw [hr] at h; cases h
      | ok sts =>
        simp only [List.all_cons, Bool.and_eq_true]
        exact ⟨collect_relm_event_valid_of_ok widgetName name event st hc,
          collect_relm_event_list_valid_of_ok widgetName name rest sts hr⟩

theorem collect_relm_events_valid_of_ok (widgetName : String) :
    ∀ (evts : List (String × List Event)) (out : List EventStmt),
    collect_relm_events widgetName evts = .ok out →
    evts.all (fun ne => ne.2.all validRelmShape) = true
  | [], _, _ => by simp
  | (name, events) :: rest, out, h => by
    simp only [collect_relm_events] at h
    cases hc : collect_relm_event_list widgetName name events with
    | error e => rw [hc] at h; cases h
    | ok sts1 =>
      rw [hc] at h
      cases hr : collect_relm_events widgetName rest with
      | error e => rw [hr] at h; cases h
      | ok sts2 =>
        simp only [List.all_cons, Bool.and_eq_true]
        exact ⟨collect_relm_event_list_valid_of_ok widgetName name events sts1 hc,
          collect_relm_events_valid_of_ok widgetName rest sts2 hr⟩

theorem collect_relm_events_of_invalid (widgetName : String)
    (evts : List (String × List Event))
    (hbad : evts.all (fun ne => ne.2.all validRelmShape) = false) :
    collect_relm_events widgetName evts = .error .unsupportedEventShape := by
  cases h : collect_relm_events widgetName evts with
  | ok out =>
    rw [collect_relm_events_valid_of_ok widgetName evts out h] at hbad
    cases hbad
  | error e =>
    rw [collect_relm_events_error widgetName evts e h]

/-! The container-type selection loop of `gen_container_impl`. -/

theorem foldl_container_type_const (acc : Option GenPath) :
    ∀ l : List (Option String × (String × GenPath)), none ∉ l.map Prod.fst →
    l.foldl (fun acc kv => if kv.1 = none then some kv.2.2 else acc) acc = acc
  | [], _ => rfl
  | kv :: rest, h => by
    simp only [List.map_cons, List.mem_cons] at h
    push_neg at h
    rw [List.foldl_cons, if_neg (fun hkv => h.1 hkv.symm)]
    exact foldl_container_type_const acc rest h.2

theorem find_container_type_eq_lookup (l : List (Option String × (String × GenPath)))
    (hnd : (l.map Prod.fst).Nodup) :
    find_container_type l = (lookupContainer l none).map Prod.snd := by
  induction l with
  | nil => rfl
  | cons kv rest ih =>
    simp only [List.map_cons, List.nodup_cons] at hnd
    cases hk : kv.1 with
    | none =>
      have hrest : none ∉ rest.map Prod.fst := by rw [← hk]; exact hnd.1
      rw [find_container_type, List.foldl_cons, if_pos hk,
        foldl_container_type_const _ rest hrest, lookupContainer, if_pos hk]
      rfl
    | some p =>
      rw [find_container_type, List.foldl_cons, if_neg (by rw [hk]; simp),
        lookupContainer, if_neg (by rw [hk]; simp)]
      exact ih hnd.2

/-- A non-empty registry with no default entry makes `gen_container_impl`
fail with the missing-default-container diagnostic. -/
theorem gen_container_impl_missing_default
    (l : List (Option String × (String × GenPath))) (w : Widget) (wt : WidgetTypeRef)
    (hwt : gen_widget_type w = .ok wt) (hne : l ≠ [])
    (hnone : none ∉ l.map Prod.fst) :
    gen_container_impl l w = .error .missingDefaultContainer := by
  have hsome : (lookupContainer l none).isSome = false := by
    rw [← Bool.not_eq_true]
    intro hx
    exact hnone ((lookupContainer_isSome_iff l none).mp hx)
  simp only [gen_container_impl, hwt]
  rw [if_neg (by simpa [List.isEmpty_iff] using hne), if_pos (by rw [hsome])]

/-! Claim theorems. -/

/-- C5: a Primitive (Gtk) widget is constructed by the generic
create-object-then-downcast expression exactly when `init_parameters` is
empty, and by the direct typed constructor call with the parameters in
declared order exactly when it is non-empty; the construction statement is
the first statement the node emits. -/
theorem construct_widget_path_by_init_parameters
    (name : String) (typ : GenPath) (props cprops : List (String × GenExpr))
    (initp : List GenExpr) (ct : Option (Option String)) (children : List Widget)
    (g : GtkWidgetData) (parent : Option String) (pk : WidgetKind)
    (s s' : GenState) (ts : List Stmt)
    (h : walkWidget (.mk name typ props cprops initp ct children (.gtk g)) parent pk s =
      .ok (s', ts)) :
    (∃ rest, ts = Stmt.letConstruct name typ (gen_construct_widget typ initp) :: rest) ∧
    (initp = [] → gen_construct_widget typ initp = .genericDowncast typ initp) ∧
    (initp ≠ [] → gen_construct_widget typ initp = .typedNew typ initp) := by
  refine ⟨?_, ?_, ?_⟩
  · rw [walkWidget.eq_def] at h
    simp only at h
    split at h
    · cases h
    · rename_i s1 heq1
      split at h
      · cases h
      · rename_i evs heq2
        split at h
        · cases h
        · rename_i s5 childStmts heq3
          cases h
          exact ⟨_, rfl⟩
  · intro he
    simp [gen_construct_widget, he]
  · intro he
    simp [gen_construct_widget, List.isEmpty_iff, he]

/-- C5 witness: `exEntry` declares the parameters `["param1", "param2"]`,
so its construction is the direct typed constructor call. -/
theorem construct_widget_path_witness :
    ∃ s' ts, walkWidget exEntry none .isGtk initGenState = .ok (s', ts) ∧
      ((∃ rest, ts = Stmt.letConstruct "entry" (.raw "gtk" ["Entry"])
          (gen_construct_widget (.raw "gtk" ["Entry"]) ["param1", "param2"]) :: rest) ∧
        (["param1", "param2"] = [] →
          gen_construct_widget (.raw "gtk" ["Entry"]) ["param1", "param2"] =
            .genericDowncast (.raw "gtk" ["Entry"]) ["param1", "param2"]) ∧
        (["param1", "param2"] ≠ [] →
          gen_construct_widget (.raw "gtk" ["Entry"]) ["param1", "param2"] =
            .typedNew (.raw "gtk" ["Entry"]) ["param1", "param2"])) :=
  ⟨_, _, rfl, construct_widget_path_by_init_parameters "entry" (.raw "gtk" ["Entry"])
    [] [] ["param1", "param2"] none [] exGtkData none .isGtk initGenState _ _ rfl⟩

/-- C10: `gen_set_child_prop_calls` emits no `set_child_<key>` statement
for a node without a parent (the root), whatever its child-property map
is, and for a node with a parent it emits exactly one statement per child
property, in declared order, on the parent's accessor. -/
theorem child_props_only_with_parent (name : String)
    (cprops : List (String × GenExpr)) (parentKind widgetKind : WidgetKind) :
    gen_set_child_prop_calls name cprops none parentKind widgetKind = [] ∧
    (∀ p, gen_set_child_prop_calls name cprops (some p) parentKind widgetKind =
      cprops.map fun kv =>
        Stmt.setChildProp
          (if parentKind = .isGtk then .direct p else .containerOf p)
          ("set_child_" ++ kv.1)
          (if widgetKind = .isGtk then .direct name else .widgetRoot name)
          kv.2) :=
  ⟨rfl, fun _ => rfl⟩

/-- C4 (amended): for every Gtk widget binding list, each binding's
emitted block materializes its own clone of the weak handle exactly when
the widget's save flag is set (`gen_clone(save)` at the head of every
block) — one clone per binding, none shared across bindings. -/
theorem gen_clone_per_binding (widgetName : String) (save : Bool)
    (evts : List (String × Event)) (out : List EventStmt)
    (h : collect_gtk_events widgetName save evts = .ok out) :
    out.length = evts.length ∧ ∀ st ∈ out, st.clone = save :=
  collect_gtk_events_clone widgetName save evts out h

/-- C4 witness: two plain bindings with `save = true` produce two blocks,
each with its own clone. -/
theorem gen_clone_per_binding_witness :
    ∃ out, collect_gtk_events "btn" true exSaveEvents = .ok out ∧
      (out.length = exSaveEvents.length ∧ ∀ st ∈ out, st.clone = true) :=
  ⟨_, rfl, gen_clone_per_binding "btn" true exSaveEvents _ rfl⟩

/-- C4 counterexample: the claim says the clone is materialized exactly
once per widget and reused by subsequent bindings; the code instead emits
`let clone = clone.clone();` inside every binding's own block, so a widget
with `save = true` and two bindings materializes two clones, not one. -/
theorem clone_emitted_per_binding_not_once :
    collect_gtk_events "btn" true exSaveEvents =
      .ok [⟨true, .gtkCurrentWithoutReturn "btn" "connect_clicked" [] "Clicked"⟩,
           ⟨true, .gtkCurrentWithoutReturn "btn" "connect_press" [] "Pressed"⟩] ∧
    ([(⟨true, .gtkCurrentWithoutReturn "btn" "connect_clicked" [] "Clicked"⟩ : EventStmt),
      ⟨true, .gtkCurrentWithoutReturn "btn" "connect_press" [] "Pressed"⟩].countP
        (fun st => st.clone) = 2) ∧ (2 ≠ 1) := by
  refine ⟨rfl, rfl, by decide⟩

/-- C2: declaring a `Return` or `CallReturn` binding on a Composed (Relm)
widget makes the walk of that widget fail with the unsupported-event-shape
diagnostic (the `unreachable!` arm of `collect_relm_events`), before any
child is visited and before any code for the node is produced — it never
degrades to another binding shape.  The side condition only asks that the
node's own container registration does not fail first. -/
theorem relm_return_shape_fails (name : String) (typ : GenPath)
    (props cprops : List (String × GenExpr)) (initp : List GenExpr)
    (ct : Option (Option String)) (children : List Widget) (r : RelmWidgetData)
    (parent : Option String) (pk : WidgetKind) (s : GenState)
    (hbad : r.events.all (fun ne => ne.2.all validRelmShape) = false)
    (hct : ∃ s₂, set_container { s with widgetNames := s.widgetNames ++ [name] }
      ct name typ = .ok s₂) :
    walkWidget (.mk name typ props cprops initp ct children (.relm r)) parent pk s =
      .error .unsupportedEventShape := by
  obtain ⟨s₂, hs₂⟩ := hct
  rw [walkWidget.eq_def]
  simp only
  rw [hs₂]
  simp only
  rw [collect_relm_events_of_invalid name r.events hbad]

/-- C2 witness: `exRelmBad` declares a `CallReturn` binding on a Relm
widget, and its walk fails with the unsupported-event-shape diagnostic. -/
theorem relm_return_shape_fails_witness :
    walkWidget exRelmBad none .isGtk initGenState = .error .unsupportedEventShape :=
  relm_return_shape_fails "comp2" (.raw "Comp" []) [] [] [] none [] ⟨[("ping", [exBadEvent])]⟩
    none .isGtk initGenState (by decide) ⟨_, rfl⟩

/-- C1 (amended): in the statement list a Gtk (Primitive) node emits, the
`visible` setters stand strictly after the node's show statement, which in
turn stands after every statement of every child (the emitted list is
literally `construct :: other-setters ++ children ++ insertion ++ show ::
visible-setters ++ child-properties`).  For a Relm (Composed) node the
claim as stated fails: the node emits no show statement of its own and its
`visible` setters stand directly after the other setters and strictly
before all of its children's statements. -/
theorem visible_setter_position :
    (∀ (name : String) (typ : GenPath) (props cprops : List (String × GenExpr))
      (initp : List GenExpr) (ct : Option (Option String)) (children : List Widget)
      (g : GtkWidgetData) (parent : Option String) (pk : WidgetKind)
      (s s' : GenState) (ts : List Stmt),
      walkWidget (.mk name typ props cprops initp ct children (.gtk g)) parent pk s =
        .ok (s', ts) →
      ∃ sMid s₅ childStmts,
        walkChildren children name .isGtk sMid = .ok (s₅, childStmts) ∧
        ts = Stmt.letConstruct name typ (gen_construct_widget typ initp) ::
          (gen_set_prop_calls props (.direct name)).1 ++ childStmts ++
          (add_child_or_show_all s₅ name typ parent pk).2 ++
          Stmt.showWidget name ::
            ((gen_set_prop_calls props (.direct name)).2 ++
              gen_set_child_prop_calls name cprops parent pk .isGtk) ∧
        (∀ st ∈ (gen_set_prop_calls props (.direct name)).2,
          ∃ v, st = .setProp (.direct name) "set_visible" v)) ∧
    (∀ (name : String) (typ : GenPath) (props cprops : List (String × GenExpr))
      (initp : List GenExpr) (ct : Option (Option String)) (children : List Widget)
      (r : RelmWidgetData) (parent : Option String) (pk : WidgetKind)
      (s s' : GenState) (ts : List Stmt),
      walkWidget (.mk name typ props cprops initp ct children (.relm r)) parent pk s =
        .ok (s', ts) →
      ∃ sMid s₅ childStmts,
        walkChildren children name .isRelm sMid = .ok (s₅, childStmts) ∧
        ts = (add_or_create_widget s₅ parent pk name typ initp).2 ++
          (gen_set_prop_calls props (.widgetMut name)).1 ++
          (gen_set_prop_calls props (.widgetMut name)).2 ++
          childStmts ++
          gen_set_child_prop_calls name cprops parent pk .isRelm ∧
        (∀ st ∈ (gen_set_prop_calls props (.widgetMut name)).2,
          ∃ v, st = .setProp (.widgetMut name) "set_visible" v)) := by
  constructor
  · intro name typ props cprops initp ct children g parent pk s s' ts h
    rw [walkWidget.eq_def] at h
    simp only at h
    split at h
    · cases h
    · rename_i s1 heq1
      split at h
      · cases h
      · rename_i evs heq2
        split at h
        · cases h
        · rename_i s5 childStmts heq3
          cases h
          exact ⟨_, s5, childStmts, heq3, rfl, gen_set_prop_calls_snd _ props⟩
  · intro name typ props cprops initp ct children r parent pk s s' ts h
    rw [walkWidget.eq_def] at h
    simp only at h
    split at h
    · cases h
    · rename_i s2 heq1
      split at h
      · cases h
      · rename_i evs heq2
        split at h
        · cases h
        · rename_i s5 childStmts heq3
          cases h
          refine ⟨_, s5, childStmts, heq3, ?_, gen_set_prop_calls_snd _ props⟩
          simp [List.append_assoc]

/-- C1 witness: the Gtk part of the amended claim instantiated on a
window with a `visible` property, a `title` property and one child. -/
theorem visible_setter_position_witness :
    ∃ s' ts, walkWidget exGtkVisible none .isGtk initGenState = .ok (s', ts) ∧
      ∃ sMid s₅ childStmts,
        walkChildren [exLabel] "win4" .isGtk sMid = .ok (s₅, childStmts) ∧
        ts = Stmt.letConstruct "win4" (.raw "gtk" ["Window"])
            (gen_construct_widget (.raw "gtk" ["Window"]) []) ::
          (gen_set_prop_calls [("visible", "true"), ("title", "t")] (.direct "win4")).1 ++
          childStmts ++
          (add_child_or_show_all s₅ "win4" (.raw "gtk" ["Window"]) none .isGtk).2 ++
          Stmt.showWidget "win4" ::
            ((gen_set_prop_calls [("visible", "true"), ("title", "t")] (.direct "win4")).2 ++
              gen_set_child_prop_calls "win4" [] none .isGtk .isGtk) ∧
        (∀ st ∈ (gen_set_prop_calls [("visible", "true"), ("title", "t")]
            (.direct "win4")).2,
          ∃ v, st = .setProp (.direct "win4") "set_visible" v) :=
  ⟨_, _, rfl, visible_setter_position.1 "win4" (.raw "gtk" ["Window"])
    [("visible", "true"), ("title", "t")] [] [] none [exLabel] exGtkData none .isGtk
    initGenState _ _ rfl⟩

/-- C1 counterexample: on the Relm node `exRelmVisible` the claim as
stated fails — the emitted list applies the `visible` setter at index 1,
its child's statements only start at index 2, and no show statement for
the node exists anywhere in the list. -/
theorem visible_before_children_on_relm_node :
    ∃ s' ts, walkWidget exRelmVisible none .isGtk initGenState = .ok (s', ts) ∧
      ts.get? 1 = some (.setProp (.widgetMut "comp") "set_visible" "true") ∧
      ts.get? 2 = some (.letConstruct "lbl" (.raw "gtk" ["Label"])
        (.genericDowncast (.raw "gtk" ["Label"]) [])) ∧
      (ts.all fun st => st ≠ .showWidget "comp") = true :=
  ⟨_, _, rfl, by decide, by decide, by decide⟩

/-! Permutation behavior of the dispatcher synthesis. -/

theorem fallbackOf_mem (l : List (Option String × (String × GenPath)))
    (v : String × GenPath) (hnd : (l.map Prod.fst).Nodup) (hmem : (none, v) ∈ l) :
    fallbackOf l = some (v.1, container_trait_for v.2) := by
  rw [fallbackOf_eq_lookup l hnd, lookupContainer_eq_of_mem l none v hnd hmem]
  rfl

theorem fallbackOf_perm (l₁ l₂ : List (Option String × (String × GenPath)))
    (h : l₁.Perm l₂) (hnd : (l₁.map Prod.fst).Nodup) :
    fallbackOf l₁ = fallbackOf l₂ := by
  have hnd2 : (l₂.map Prod.fst).Nodup := (h.map Prod.fst).nodup_iff.mp hnd
  by_cases hm : none ∈ l₁.map Prod.fst
  · obtain ⟨kv, hkv, hfst⟩ := List.mem_map.mp hm
    obtain ⟨k, v⟩ := kv
    cases hfst
    rw [fallbackOf_mem l₁ v hnd hkv, fallbackOf_mem l₂ v hnd2 (h.mem_iff.mp hkv)]
  · have hm2 : none ∉ l₂.map Prod.fst := fun hx => hm ((h.map Prod.fst).mem_iff.mpr hx)
    rw [fallbackOf_none_of_not_mem l₁ hm, fallbackOf_none_of_not_mem l₂ hm2]

/-- C3 (amended): code generation is deterministic in everything that is
a function of the widget tree, but the `add_widget` dispatcher is built by
iterating a `HashMap` whose iteration order is unspecified; two runs over
the same registry contents may order the conditional chain differently.
What is invariant under a permutation of the iteration order is: whether
the dispatcher is emitted at all, the multiset of its conditional
branches, and its fallback (default-container) branch. -/
theorem add_widget_method_stable_up_to_permutation
    (l₁ l₂ : List (Option String × (String × GenPath))) (h : l₁.Perm l₂)
    (hnd : (l₁.map Prod.fst).Nodup) :
    (gen_add_widget_method l₁).isSome = (gen_add_widget_method l₂).isSome ∧
    (∀ m₁ m₂, gen_add_widget_method l₁ = some m₁ → gen_add_widget_method l₂ = some m₂ →
      m₁.branches.Perm m₂.branches ∧ m₁.fallback = m₂.fallback) := by
  rw [gen_add_widget_method_spec, gen_add_widget_method_spec, ← h.length_eq]
  by_cases hlen : l₁.length > 1
  · rw [if_pos hlen, if_pos hlen]
    refine ⟨rfl, ?_⟩
    intro m₁ m₂ h₁ h₂
    cases h₁
    cases h₂
    exact ⟨h.filterMap _, fallbackOf_perm l₁ l₂ h hnd⟩
  · rw [if_neg hlen, if_neg hlen]
    exact ⟨rfl, fun m₁ m₂ h₁ _ => by cases h₁⟩

/-- C3 amended-claim witness: the two iteration orders `exRegistryA` and
`exRegistryB` of the same registry contents yield dispatchers with the
same branch multiset and the same fallback. -/
theorem add_widget_method_stable_witness :
    (gen_add_widget_method exRegistryA).isSome = (gen_add_widget_method exRegistryB).isSome ∧
    (∀ m₁ m₂, gen_add_widget_method exRegistryA = some m₁ →
      gen_add_widget_method exRegistryB = some m₂ →
      m₁.branches.Perm m₂.branches ∧ m₁.fallback = m₂.fallback) :=
  add_widget_method_stable_up_to_permutation exRegistryA exRegistryB
    (.cons _ (.swap _ _ _)) (by decide)

/-- C3 counterexample: the registry contents of `exRegistryA` and
`exRegistryB` are equal as maps (one is a permutation of the other), yet
the synthesized dispatchers differ — the conditional chain order follows
the unspecified `HashMap` iteration order, so two runs of `gen` on the
same input need not produce identical output. -/
theorem add_widget_method_depends_on_registry_order :
    exRegistryA.Perm exRegistryB ∧
    gen_add_widget_method exRegistryA ≠ gen_add_widget_method exRegistryB :=
  ⟨.cons _ (.swap _ _ _), by decide⟩

/-- C9: the trait synthesizer emits nothing for an empty registry; for a
non-empty registry with a default entry it emits the implementation, whose
`add_widget` dispatcher exists exactly when more than one entry is
registered, and whose fallback (else) branch adds to the default
container. -/
theorem container_impl_emission :
    (∀ (w : Widget) (wt : WidgetTypeRef), gen_widget_type w = .ok wt →
      gen_container_impl [] w = .ok none) ∧
    (∀ (l : List (Option String × (String × GenPath))) (w : Widget)
      (wt : WidgetTypeRef) (dn : String) (dt : GenPath),
      gen_widget_type w = .ok wt → (l.map Prod.fst).Nodup →
      lookupContainer l none = some (dn, dt) →
      ∃ ci, gen_container_impl l w = .ok (some ci) ∧
        ci.containerName = dn ∧ ci.containerType = dt ∧
        ci.addWidget = gen_add_widget_method l ∧
        (ci.addWidget.isSome = true ↔ 1 < l.length) ∧
        ∀ m, ci.addWidget = some m → m.fallback = some (dn, container_trait_for dt)) := by
  constructor
  · intro w wt hwt
    simp [gen_container_impl, hwt]
  · intro l w wt dn dt hwt hnd hlookup
    have hne : l ≠ [] := by
      intro he
      subst he
      simp [lookupContainer] at hlookup
    have hobj : gen_container_impl l w =
        .ok (some ⟨wt, dt, dn, gen_add_widget_method l⟩) := by
      simp only [gen_container_impl, hwt]
      rw [if_neg (by simpa [List.isEmpty_iff] using hne),
        if_neg (by rw [hlookup]; simp),
        find_container_type_eq_lookup l hnd, hlookup]
      rfl
    refine ⟨⟨wt, dt, dn, gen_add_widget_method l⟩, hobj, rfl, rfl, rfl, ?_, ?_⟩
    · rw [gen_add_widget_method_spec]
      by_cases hlen : l.length > 1
      · simp [hlen]
      · simp [hlen]
    · intro m hm
      rw [gen_add_widget_method_spec] at hm
      split at hm
      · cases hm
        rw [fallbackOf_eq_lookup l hnd, hlookup]
        rfl
      · cases hm

/-- C9 witness: the empty registry emits nothing, and the three-entry
registry `exRegistryA` (default plus two named entries) emits a
dispatcher whose fallback is the default container `cont`. -/
theorem container_impl_emission_witness :
    gen_container_impl [] exContainerWidget = .ok none ∧
    ∃ ci, gen_container_impl exRegistryA exContainerWidget = .ok (some ci) ∧
      ci.containerName = "cont" ∧ ci.containerType = pathGtkBox ∧
      ci.addWidget = gen_add_widget_method exRegistryA ∧
      (ci.addWidget.isSome = true ↔ 1 < exRegistryA.length) ∧
      ∀ m, ci.addWidget = some m →
        m.fallback = some ("cont", container_trait_for pathGtkBox) :=
  ⟨container_impl_emission.1 exContainerWidget (.path (.raw "App" [])) rfl,
   container_impl_emission.2 exRegistryA exContainerWidget (.path (.raw "App" []))
     "cont" pathGtkBox rfl (by decide) rfl⟩

/-- C6: a tree in which two nodes declare the same container discriminant
(two defaults included) never compiles: `gen` fails, and as long as no
invalid event shape aborts the walk first, the diagnostic is the
duplicate-container-attribute panic of `set_container!`, wherever in the
tree the two declarations occur. -/
theorem duplicate_discriminant_always_fails (w : Widget)
    (hdup : ¬ (declaredKeys w).Nodup) :
    (∃ e, gen w = .error e) ∧
    (validShapes w = true → ∃ d, gen w = .error (.duplicateContainerAttribute d)) := by
  cases h : walkWidget w none .isGtk initGenState with
  | ok r =>
    obtain ⟨s', ts⟩ := r
    exact absurd (walkWidget_keys w none .isGtk initGenState s' ts h).2.1 hdup
  | error e =>
    have hg : gen w = .error e := by simp [gen, h]
    refine ⟨⟨e, hg⟩, fun hv => ?_⟩
    obtain ⟨d, hd⟩ := walkWidget_error w none .isGtk initGenState e hv h
    exact ⟨d, by rw [hg, hd]⟩

/-- C6 witness: a tree whose root and child both declare the default
attachment point fails with the duplicate-container diagnostic. -/
theorem duplicate_discriminant_witness :
    (∃ e, gen exDupDefaultTree = .error e) ∧
    (validShapes exDupDefaultTree = true →
      ∃ d, gen exDupDefaultTree = .error (.duplicateContainerAttribute d)) :=
  duplicate_discriminant_always_fails exDupDefaultTree (by decide)

/-- C7: a tree declaring a named attachment point but no default one
never compiles: `gen` always fails, and whenever the tree walk itself
succeeds (and the driver-assigned `relm_name` is present so that
`gen_widget_type` does not panic first), the diagnostic is
`MissingDefaultContainer`. -/
theorem named_without_default_fails (w : Widget) (d : String)
    (hnamed : some d ∈ declaredKeys w) (hnodef : none ∉ declaredKeys w) :
    (∃ e, gen w = .error e) ∧
    (∀ s' ts wt, walkWidget w none .isGtk initGenState = .ok (s', ts) →
      gen_widget_type w = .ok wt → gen w = .error .missingDefaultContainer) := by
  have main : ∀ s' ts, walkWidget w none .isGtk initGenState = .ok (s', ts) →
      ∀ wt, gen_widget_type w = .ok wt → gen w = .error .missingDefaultContainer := by
    intro s' ts h wt hwt
    have hkeys := (walkWidget_keys w none .isGtk initGenState s' ts h).1
    have hkeys' : s'.containerKeys = declaredKeys w := by
      simpa [initGenState, GenState.containerKeys] using hkeys
    have hne : s'.containerNames ≠ [] := by
      intro he
      have : s'.containerKeys = [] := by simp [GenState.containerKeys, he]
      rw [this] at hkeys'
      rw [← hkeys'] at hnamed
      simp at hnamed
    have hnone' : none ∉ s'.containerNames.map Prod.fst := by
      have : s'.containerNames.map Prod.fst = declaredKeys w := hkeys'
      rw [this]
      exact hnodef
    have hroot := (walkWidget_root w .isGtk initGenState s' ts h).1
    have hci := gen_container_impl_missing_default s'.containerNames w wt hwt hne hnone'
    simp [gen, h, hroot, hci]
  constructor
  · cases h : walkWidget w none .isGtk initGenState with
    | error e => exact ⟨e, by simp [gen, h]⟩
    | ok r =>
      obtain ⟨s', ts⟩ := r
      cases hwt : gen_widget_type w with
      | error e =>
        refine ⟨e, ?_⟩
        have hroot := (walkWidget_root w .isGtk initGenState s' ts h).1
        have hci : gen_container_impl s'.containerNames w = .error e := by
          simp [gen_container_impl, hwt]
        simp [gen, h, hroot, hci]
      | ok wt => exact ⟨.missingDefaultContainer, main s' ts h wt hwt⟩
  · intro s' ts wt h hwt
    exact main s' ts h wt hwt

/-- C7 witness: a tree with only the named attachment point `tab` fails
with the missing-default-container diagnostic. -/
theorem named_without_default_witness :
    (∃ e, gen exNamedOnlyTree = .error e) ∧
    gen exNamedOnlyTree = .error .missingDefaultContainer := by
  have h := named_without_default_fails exNamedOnlyTree "tab" (by decide) (by decide)
  exact ⟨h.1, h.2 _ _ (.ident "MainWin") rfl rfl⟩

/-- C8: when compilation succeeds, the driver records the parentless node
as the root — its name, its kind-appropriate root type and its
kind-appropriate accessor expression — and the write log shows the root
fields were written exactly once, with no other node's name ever
recorded. -/
theorem single_root_recorded_once (w : Widget) (res : GenResult)
    (h : gen w = .ok res) :
    res.state.driver.rootWidget = some w.name ∧
    res.state.driver.rootWidgetType = some (rootTypeOf w) ∧
    res.state.driver.rootWidgetExpr = some (rootExprOf w) ∧
    res.state.driver.rootLog = [w.name] := by
  simp only [gen] at h
  split at h
  · cases h
  · rename_i s code hw
    split at h
    · cases h
    · rename_i rootName hroot
      split at h
      · cases h
      · rename_i ci hci
        cases h
        obtain ⟨h1, h2, h3, h4⟩ := walkWidget_root w .isGtk initGenState s code hw
        simp only [initGenState] at h4
        exact ⟨h1, h2, h3, by simpa using h4⟩

/-- C8 witness: on the concrete tree `exTree`, compilation succeeds and
the window node `win3` is the unique recorded root. -/
theorem single_root_recorded_witness :
    ∃ res, gen exTree = .ok res ∧
      (res.state.driver.rootWidget = some exTree.name ∧
       res.state.driver.rootWidgetType = some (rootTypeOf exTree) ∧
       res.state.driver.rootWidgetExpr = some (rootExprOf exTree) ∧
       res.state.driver.rootLog = [exTree.name]) :=
  ⟨_, rfl, single_root_recorded_once exTree _ rfl⟩
